import Mathlib

/-!
# Verification of the spoc-shot orchestration engine

A shallow embedding, in Lean 4, of the parts of the spoc-shot repository that
the verified properties concern:

* `src/app/verifier.py` — the `verify` success predicate over tool results;
* `src/app/agent.py` — the `solve_multi_pass` / `solve_single_pass`
  orchestration loops, with the generation provider abstracted as a script of
  replies (the real provider is an external HTTP service) and the tool layer
  as a function parameter where the loop only forwards to it;
* `src/app/tools.py` — `run_tool`'s registry dispatch (the unknown-tool branch
  is modelled exactly; a registered tool's own body is a parameter since the
  bodies simulate latency with `time.sleep`/`random` and none of the proved
  properties depend on them);
* `src/agent_v2/core/tools.py` — `ToolRegistry.execute_tool`'s unknown-tool
  branch and `BaseTool.record_execution` / `BaseTool.success_rate`;
* `src/agent_v2/core/agent.py` — `ConversationMemory` (messages, learning
  patterns, `extract_learning_pattern`, `get_relevant_patterns`,
  `get_last_tool_result`) and `BaseAgent.should_apply_learning`.

Python values that flow through these functions (tool results, parsed JSON
payloads, call dictionaries) are modelled by the inductive type `PyVal`;
machine floats appear only in the fixed confidence constant `0.8` and in
`success_rate`, both modelled over `ℚ` (the verified facts about them —
guard against a zero denominator, range `[0,1]` — are exact, not
rounding-sensitive).  Wall-clock timing (`time.perf_counter`, `latency`
metrics, `asyncio.sleep`) is not modelled; the `latency` field of the metrics
dictionary is dropped and every other field is kept.
-/

namespace SpocShot

/-- A Python value, as far as the embedded functions inspect one: `None`,
booleans, integers, strings, lists, and (insertion-ordered) dictionaries with
string keys.  Dictionaries are association lists; the embedded code never
builds one with a repeated key. -/
inductive PyVal where
  | none : PyVal
  | bool (b : Bool) : PyVal
  | int (n : Int) : PyVal
  | str (s : String) : PyVal
  | list (xs : List PyVal) : PyVal
  | dict (entries : List (String × PyVal)) : PyVal

/-- Entries of a Python dict. -/
abbrev PyDict := List (String × PyVal)

/-- Python `d.get(k, dflt)`. -/
def pyGet (d : PyDict) (k : String) (dflt : PyVal) : PyVal :=
  match d.lookup k with
  | Option.some v => v
  | Option.none => dflt

/-- Python `d[k] = v`: replace the value in place when the key exists
(insertion order kept), append otherwise. -/
def pySet (d : PyDict) (k : String) (v : PyVal) : PyDict :=
  if d.any (fun p => p.1 == k) then
    d.map (fun p => if p.1 == k then (k, v) else p)
  else
    d ++ [(k, v)]

/-- Python truthiness for the values the embedded code tests with `if x:` /
`not x`. -/
def pyTruthy : PyVal → Bool
  | PyVal.none => false
  | PyVal.bool b => b
  | PyVal.int n => n != 0
  | PyVal.str s => s ≠ ""
  | PyVal.list xs => !xs.isEmpty
  | PyVal.dict es => !es.isEmpty

/-- Does the character list start with the pattern? -/
def startsWith : List Char → List Char → Bool
  | _, [] => true
  | [], _ :: _ => false
  | c :: cs, p :: ps => c == p && startsWith cs ps

/-- Split at the first occurrence of `pat`: `some (before, after)` with the
occurrence itself removed, `none` when `pat` never occurs.  The empty
pattern occurs at the start, as in Python. -/
def splitAtFirst (pat : List Char) : List Char → Option (List Char × List Char)
  | [] => if pat.isEmpty then Option.some ([], []) else Option.none
  | c :: cs =>
      if startsWith (c :: cs) pat then Option.some ([], (c :: cs).drop pat.length)
      else
        match splitAtFirst pat cs with
        | Option.some (pre, post) => Option.some (c :: pre, post)
        | Option.none => Option.none

/-- Python `pat in s` on strings (`str.__contains__`). -/
def strContains (s pat : String) : Bool :=
  (splitAtFirst pat.toList s.toList).isSome

/-- Python's notion of (ASCII) whitespace for `str.strip`. -/
def isPySpace (c : Char) : Bool :=
  c == ' ' || c == '\t' || c == '\n' || c == '\r' || c == '\x0b' || c == '\x0c'

/-- Python `s.strip()`: whitespace removed from both ends. -/
def pyStrip (s : String) : String :=
  String.mk (((s.toList.dropWhile isPySpace).reverse.dropWhile isPySpace).reverse)

mutual

/-- Python `repr(x)` (string escaping inside quoted strings is not
reproduced; the embedded code only ever compares or concatenates these
renderings). -/
def pyRepr : PyVal → String
  | PyVal.none => "None"
  | PyVal.bool b => if b then "True" else "False"
  | PyVal.int n => toString n
  | PyVal.str s => "\x27" ++ s ++ "\x27"
  | PyVal.list xs => "[" ++ pyReprList xs ++ "]"
  | PyVal.dict es => "\x7b" ++ pyReprEntries es ++ "\x7d"

/-- Comma-separated `repr`s of a list's elements. -/
def pyReprList : List PyVal → String
  | [] => ""
  | [x] => pyRepr x
  | x :: xs => pyRepr x ++ ", " ++ pyReprList xs

/-- Comma-separated `repr`s of a dict's entries. -/
def pyReprEntries : List (String × PyVal) → String
  | [] => ""
  | [(k, v)] => "\x27" ++ k ++ "\x27: " ++ pyRepr v
  | (k, v) :: es => "\x27" ++ k ++ "\x27: " ++ pyRepr v ++ ", " ++ pyReprEntries es

end

/-- Python `str(x)`: the string itself for a string, `repr` otherwise (the
f-strings of the embedded code interpolate values this way). -/
def pyStr : PyVal → String
  | PyVal.str s => s
  | v => pyRepr v

mutual

/-- Python `==` between the values the embedded code compares (same-shape
comparisons; the numeric cross-type equalities `1 == True` etc. never arise
there, and a dict compares by its insertion-ordered entries). -/
def pyValBeq : PyVal → PyVal → Bool
  | PyVal.none, PyVal.none => true
  | PyVal.bool a, PyVal.bool b => a == b
  | PyVal.int a, PyVal.int b => a == b
  | PyVal.str a, PyVal.str b => a == b
  | PyVal.list a, PyVal.list b => pyListBeq a b
  | PyVal.dict a, PyVal.dict b => pyEntriesBeq a b
  | _, _ => false

/-- Elementwise `pyValBeq` on lists. -/
def pyListBeq : List PyVal → List PyVal → Bool
  | [], [] => true
  | a :: as', b :: bs' => pyValBeq a b && pyListBeq as' bs'
  | _, _ => false

/-- Entrywise `pyValBeq` on dict entries. -/
def pyEntriesBeq : List (String × PyVal) → List (String × PyVal) → Bool
  | [], [] => true
  | (ka, va) :: as', (kb, vb) :: bs' =>
      ka == kb && pyValBeq va vb && pyEntriesBeq as' bs'
  | _, _ => false

end

/-- Python `needle in container` where the container may be a string
(substring test) or a list (membership); `Option.none` models the `TypeError`
any other combination raises. -/
def pyIn (needle container : PyVal) : Option Bool :=
  match container with
  | PyVal.str s =>
      match needle with
      | PyVal.str n => Option.some (strContains s n)
      | _ => Option.none
  | PyVal.list xs => Option.some (xs.any (fun v => pyValBeq v needle))
  | _ => Option.none

/-! ## `src/app/verifier.py` -/

/-- Source `verify` (src/app/verifier.py): the result of a tool execution counts as
successful when it is a dictionary whose `"ok"` key holds exactly `True`
(Python `result.get("ok", False) is True`; the identity test accepts only the
`True` singleton, so a truthy non-`True` value such as `1` fails). -/
def verify (result : PyVal) : Bool :=
  match result with
  | PyVal.dict es =>
      match es.lookup "ok" with
      | Option.some (PyVal.bool true) => true
      | _ => false
  | _ => false

/-! ## The streaming call extractor (src/app/agent.py)

`solve_multi_pass` / `solve_single_pass` recognize an embedded call with

    if "TOOL_CALL:" in response_text:
        tool_call_str = response_text.split("TOOL_CALL:", 1)[1].strip()
        call_data = json.loads(tool_call_str)
        call_data["args"] = get_tool_args(call_data)

`json.loads` is standard-library code, abstracted here as a parameter
`jsonLoads : String → Option PyVal` (`Option.none` models a raised
`json.JSONDecodeError`). -/

/-- The sentinel marker literal of src/app/agent.py. -/
def MARKER : String := "TOOL_CALL:"

/-- Python `"TOOL_CALL:" in response_text`. -/
def hasMarker (s : String) : Bool := strContains s MARKER

/-- Python `response_text.split("TOOL_CALL:", 1)[1]`: everything after the
first occurrence of the marker, later occurrences left intact (empty when
the marker does not occur; the loops only use this under `hasMarker`). -/
def afterMarker (s : String) : String :=
  match splitAtFirst MARKER.toList s.toList with
  | Option.some (_, post) => String.mk post
  | Option.none => ""

/-- Source `get_tool_args` (src/app/agent.py): the call's arguments from its `args`
key, else its `arguments` key, else the empty dict
(`call_data.get("args", call_data.get("arguments", {}))`). -/
def get_tool_args (call_data : PyDict) : PyVal :=
  pyGet call_data "args" (pyGet call_data "arguments" (PyVal.dict []))

/-- What one model turn yields in the agent loops' extraction block. -/
inductive ExtractResult where
  /-- No sentinel marker: the turn is a final natural-language answer. -/
  | noCall : ExtractResult
  /-- Parsing failed: `json.loads` raised `JSONDecodeError` (caught: the loop injects an
  "Invalid tool call format" tool message and retries). -/
  | badParse : ExtractResult
  /-- Parsing succeeded badly: `json.loads` returned a non-dict, so `call_data.get(...)` raises an
  uncaught `AttributeError` that escapes the generator. -/
  | crashed : ExtractResult
  /-- Exactly one recognized call, its `args` key standardized. -/
  | call (data : PyDict) : ExtractResult

/-- The extraction block of src/app/agent.py lines 146–151 / 239–244, run on
one full model turn `s`. -/
def extractToolCall (jsonLoads : String → Option PyVal) (s : String) :
    ExtractResult :=
  if hasMarker s then
    match jsonLoads (pyStrip (afterMarker s)) with
    | Option.none => ExtractResult.badParse
    | Option.some (PyVal.dict es) =>
        ExtractResult.call (pySet es "args" (get_tool_args es))
    | Option.some _ => ExtractResult.crashed
  else ExtractResult.noCall

/-! ## The tool registry (src/app/tools.py) -/

/-- The keys of `TOOL_REGISTRY` in src/app/tools.py, in order. -/
def TOOL_REGISTRY : List String :=
  ["sql_query", "web_search", "analyze_data", "solve_equation"]

/-- Source `run_tool` (src/app/tools.py): look the call's name up in the registry;
an unknown (or missing, hence `None`) name yields
`{"ok": False, "hint": f"Tool '{tool_name}' not found."}`.  A registered
tool's own body (`tool_function(**tool_args)`, including the `TypeError`
mapping for bad arguments) is the parameter `impl`. -/
def run_tool (impl : String → PyVal → PyVal) (call : PyDict) : PyVal :=
  let tool_name := pyGet call "name" PyVal.none
  match tool_name with
  | PyVal.str s =>
      if TOOL_REGISTRY.contains s then impl s (pyGet call "args" (PyVal.dict []))
      else PyVal.dict [("ok", PyVal.bool false),
        ("hint", PyVal.str ("Tool \x27" ++ s ++ "\x27 not found."))]
  | v => PyVal.dict [("ok", PyVal.bool false),
      ("hint", PyVal.str ("Tool \x27" ++ pyStr v ++ "\x27 not found."))]

/-! ## The v2 tool registry (src/agent_v2/core/tools.py) -/

/-- The names of the two tools `ToolRegistry._initialize_default_tools`
registers, in registration order. -/
def V2_DEFAULT_TOOLS : List String := ["sql_query", "web_search"]

/-- Source `ToolRegistry.execute_tool` (src/agent_v2/core/tools.py): an unknown tool
name yields `{"ok": False, "error": f"Tool '{tool_name}' not found",
"available_tools": list(self.tools.keys())}` — the known names travel in a
separate `available_tools` field, not in a hint.  A registered tool's
`execute` body (with its exception-to-hint mapping) is the parameter
`impl`. -/
def execute_tool (impl : String → PyDict → PyVal) (tool_name : PyVal)
    (args : PyDict) : PyVal :=
  match tool_name with
  | PyVal.str s =>
      if V2_DEFAULT_TOOLS.contains s then impl s args
      else PyVal.dict [("ok", PyVal.bool false),
        ("error", PyVal.str ("Tool \x27" ++ s ++ "\x27 not found")),
        ("available_tools", PyVal.list (V2_DEFAULT_TOOLS.map PyVal.str))]
  | v => PyVal.dict [("ok", PyVal.bool false),
      ("error", PyVal.str ("Tool \x27" ++ pyStr v ++ "\x27 not found")),
      ("available_tools", PyVal.list (V2_DEFAULT_TOOLS.map PyVal.str))]

/-- Per-tool execution counters of `BaseTool` (src/agent_v2/core/tools.py):
`_call_count` and `_success_count`, both starting at 0. -/
structure ToolStats where
  callCount : Nat
  successCount : Nat
  deriving DecidableEq

/-- The counters a fresh `BaseTool` starts with. -/
def ToolStats.initial : ToolStats := ⟨0, 0⟩

/-- Source `BaseTool.record_execution`: bump `_call_count`, and `_success_count` only
on success. -/
def record_execution (st : ToolStats) (success : Bool) : ToolStats :=
  { callCount := st.callCount + 1,
    successCount := if success then st.successCount + 1 else st.successCount }

/-- Source `BaseTool.success_rate`: `0.0` when `_call_count` is zero, else
`_success_count / _call_count` (exact rational in place of the Python
float). -/
def success_rate (st : ToolStats) : ℚ :=
  if st.callCount = 0 then 0
  else (st.successCount : ℚ) / (st.callCount : ℚ)

/-- The counters after a sequence of recorded executions, from a fresh
tool. -/
def statsAfter (outcomes : List Bool) : ToolStats :=
  outcomes.foldl record_execution ToolStats.initial

/-! ## Conversation memory and learning (src/agent_v2/core/agent.py) -/

/-- Source `ToolCall` (src/agent_v2/core/agent.py): a recognized call.  The
generated uuid `id` plays no role in the embedded functions and is
dropped. -/
structure ToolCallV2 where
  name : String
  args : PyDict

/-- Source `ToolResult` (src/agent_v2/core/agent.py).  The dataclass annotates
`success : bool` and `hint : Optional[str]`, but Python does not enforce the
annotations and `ConversationMemory.get_last_tool_result` fills the fields
with whatever the parsed JSON held, so all four fields are modelled as raw
Python values (`hint = PyVal.none` is the dataclass's `None`).  The
`metadata` map defaults to empty and is never read. -/
structure ToolResultV2 where
  success : PyVal
  data : PyVal := PyVal.none
  error : PyVal := PyVal.none
  hint : PyVal := PyVal.none

/-- Source `LearningPattern` (src/agent_v2/core/agent.py). -/
structure LearningPattern where
  pattern_type : String
  context : String
  solution : PyVal
  confidence : ℚ
  usage_count : Nat := 0
  success_rate : ℚ := 0

/-- The fixed initial confidence `0.8` of a freshly extracted pattern. -/
def INITIAL_CONFIDENCE : ℚ := 4 / 5

/-- The context key `f"Tool '{tool_call.name}' with args {tool_call.args}"`
used both by `extract_learning_pattern` and `get_relevant_patterns`. -/
def patternContext (name : String) (args : PyDict) : String :=
  "Tool \x27" ++ name ++ "\x27 with args " ++ pyRepr (PyVal.dict args)

/-- A message of `ConversationMemory`.  The source stores `content` as a
string; here the content records, along with the text's role in the code,
whether `json.loads` would succeed on it: `text s` is free text (on which
`json.loads` raises), `json v` is the serialization of `v` (on which
`json.loads` returns `v`).  `metadata`, `timestamp` and the uuid `id` are
never read by the embedded functions and are dropped. -/
inductive MsgContent where
  | text (s : String) : MsgContent
  | json (v : PyVal) : MsgContent

/-- A `Message` of src/agent_v2/core/agent.py, as stored in
`ConversationMemory.messages`. -/
structure MsgV2 where
  role : String
  content : MsgContent

/-- Source `ConversationMemory.get_last_tool_result`: walk the messages from the
most recent; on each `tool`-role message try `json.loads` — a
`JSONDecodeError` is caught and the walk continues; a parsed dict is packed
into a `ToolResult` (`ok`, falling back to `success`, falling back to
`False`); a parsed non-dict raises an uncaught `AttributeError` at
`result_data.get`, modelled as `Except.error ()`. -/
def get_last_tool_result (msgs : List MsgV2) :
    Except Unit (Option ToolResultV2) :=
  match msgs.reverse.find? (fun m =>
      m.role == "tool" && match m.content with
        | MsgContent.text _ => false
        | MsgContent.json _ => true) with
  | Option.none => Except.ok Option.none
  | Option.some m =>
      match m.content with
      | MsgContent.json (PyVal.dict es) =>
          Except.ok (Option.some
            { success := pyGet es "ok" (pyGet es "success" (PyVal.bool false)),
              data := pyGet es "data" PyVal.none,
              error := pyGet es "error" PyVal.none,
              hint := pyGet es "hint" PyVal.none })
      | _ => Except.error ()

/-- The most recent `tool`-role message of the memory, regardless of
whether its content parses (what the spec means by "the most recent
tool-role message"). -/
def lastToolMsg (msgs : List MsgV2) : Option MsgV2 :=
  msgs.reverse.find? (fun m => m.role == "tool")

/-- Helper for `ConversationMemory.extract_learning_pattern`, first match of the
dedup scan: bump `usage_count` of the first stored pattern with the given
context, returning it and the updated store; `Option.none` when no pattern
has that context. -/
def bumpFirst (ctx : String) :
    List LearningPattern → Option LearningPattern × List LearningPattern
  | [] => (Option.none, [])
  | p :: ps =>
      if p.context == ctx then
        let p' := { p with usage_count := p.usage_count + 1 }
        (Option.some p', p' :: ps)
      else
        let (r, ps') := bumpFirst ctx ps
        (r, p :: ps')

/-- Source `ConversationMemory.extract_learning_pattern`: nothing is stored (and
nothing returned) when the result succeeded or carries no (truthy) hint;
otherwise the first stored pattern with the identical context key gets its
`usage_count` incremented and is returned, and only when none exists is a new
pattern (type `"hint"`, the failure's hint as solution, confidence `0.8`)
appended.  Returns the extracted pattern and the updated pattern store. -/
def extract_learning_pattern (store : List LearningPattern)
    (tool_call : ToolCallV2) (tool_result : ToolResultV2) :
    Option LearningPattern × List LearningPattern :=
  if pyTruthy tool_result.success || !pyTruthy tool_result.hint then
    (Option.none, store)
  else
    let ctx := patternContext tool_call.name tool_call.args
    match bumpFirst ctx store with
    | (Option.some p, store') => (Option.some p, store')
    | (Option.none, _) =>
        let p : LearningPattern :=
          { pattern_type := "hint", context := ctx,
            solution := tool_result.hint, confidence := INITIAL_CONFIDENCE }
        (Option.some p, store ++ [p])

/-- Stable insert for a descending-by-confidence insertion sort: `x` goes
before the first element whose confidence is not above `x`'s, so elements of
equal confidence keep their original order. -/
def insertByConfidence (x : LearningPattern) :
    List LearningPattern → List LearningPattern
  | [] => [x]
  | q :: qs =>
      if x.confidence < q.confidence then q :: insertByConfidence x qs
      else x :: q :: qs

/-- A stable sort by confidence, descending — extensionally what Python's
(stable) `sorted(..., key=lambda p: p.confidence, reverse=True)` returns. -/
def sortByConfidence : List LearningPattern → List LearningPattern
  | [] => []
  | x :: xs => insertByConfidence x (sortByConfidence xs)

/-- Source `ConversationMemory.get_relevant_patterns`: the stored patterns of type
`"hint"` whose context mentions the call's tool name (Python substring
test), sorted by confidence descending, ties keeping insertion order. -/
def get_relevant_patterns (store : List LearningPattern)
    (tool_call : ToolCallV2) : List LearningPattern :=
  sortByConfidence (store.filter (fun p =>
    p.pattern_type == "hint" && strContains p.context tool_call.name))

/-- What `BaseAgent.should_apply_learning` does: nothing, an alert string,
or an uncaught exception (`raised`, from `get_last_tool_result` on a parsed
non-dict or from a `TypeError` in the `in` test). -/
inductive LearningCheck where
  | noAlert : LearningCheck
  | alert (s : String) : LearningCheck
  | raised : LearningCheck

/-- The `for pattern in patterns: if pattern.solution in last_result.hint`
scan of `should_apply_learning`, with the `TypeError` a non-string/non-list
operand raises modelled as `raised`. -/
def findAlert (hint : PyVal) : List LearningPattern → LearningCheck
  | [] => LearningCheck.noAlert
  | p :: ps =>
      match pyIn p.solution hint with
      | Option.none => LearningCheck.raised
      | Option.some true =>
          LearningCheck.alert
            ("LEARNING ALERT: Previous attempt failed with hint \x27"
              ++ pyStr hint ++ "\x27. Apply learned pattern: " ++ pyStr p.solution)
      | Option.some false => findAlert hint ps

/-- Source `BaseAgent.should_apply_learning` (src/agent_v2/core/agent.py): an alert
is produced only when relevant patterns exist, the most recent (parseable)
tool-role message is a failure carrying a truthy hint, and some relevant
pattern's solution occurs in that hint.  The method only reads
`tool_call` — it never writes `tool_call.args` — and mutates nothing, which
the embedding reflects by returning only the check's outcome. -/
def should_apply_learning (store : List LearningPattern) (msgs : List MsgV2)
    (tool_call : ToolCallV2) : LearningCheck :=
  let patterns := get_relevant_patterns store tool_call
  if patterns.isEmpty then LearningCheck.noAlert
  else
    match get_last_tool_result msgs with
    | Except.error () => LearningCheck.raised
    | Except.ok Option.none => LearningCheck.noAlert
    | Except.ok (Option.some last_result) =>
        if !pyTruthy last_result.success && pyTruthy last_result.hint then
          findAlert last_result.hint patterns
        else LearningCheck.noAlert

/-! ## The orchestration loops (src/app/agent.py)

`solve_multi_pass` and `solve_single_pass` are async generators around one
shared loop shape; they differ in their prompts, in the phase name they yield
on a verification failure (`failure` vs `patch`), and in the extra `propose`
event the multi-pass loop yields before its final-answer round.  The
embedding drives one loop, `solveLoop`, with a `single` flag, and the
generation provider — an external HTTP service — is a script: the list of
replies the provider would return, in order, each carrying its usage token
counts (`get_token_counts` reads them off the completion, 0 when absent).
Wall-clock effects (`asyncio.sleep`, `latency`) and log lines are not
modelled; each yielded event keeps its phase and its metrics snapshot, and
drops the purely decorative payload fields (`debug`, human-readable
messages with attempt numbers). -/

/-- The metrics dictionary threaded through both loops, minus its
wall-clock `latency` field. -/
structure Metrics where
  prompt_tokens : Nat
  completion_tokens : Nat
  llm_calls : Nat
  deriving DecidableEq

/-- The metrics value both loops start from. -/
def Metrics.zero : Metrics := ⟨0, 0, 0⟩

/-- One provider response: a completion (content plus usage token counts) or
an `openai.APIError`. -/
inductive LLMReply where
  | reply (content : String) (ptok ctok : Nat) : LLMReply
  | apiError (msg : String) : LLMReply

/-- The events the loops yield, with their metrics snapshots. -/
inductive Event where
  | propose (m : Metrics) : Event
  | model_response (content : String) (m : Metrics) : Event
  | execute (call : PyDict) (m : Metrics) : Event
  | tool_result (result : PyVal) (m : Metrics) : Event
  /-- Phase `failure`: invalid call format, or (multi-pass) a verification
  failure. -/
  | failure (m : Metrics) : Event
  /-- Phase `patch`: a single-pass verification failure. -/
  | patch (m : Metrics) : Event
  | success (answer : String) (m : Metrics) : Event
  | error (msg : String) : Event

/-- How a run ends. -/
inductive Outcome where
  /-- The terminal `success` event was yielded (with this answer and
  metrics snapshot) and the generator returned. -/
  | success (answer : String) (m : Metrics) : Outcome
  /-- The terminal `error` event was yielded and the generator returned. -/
  | error (msg : String) : Outcome
  /-- An uncaught exception escaped the generator (a non-dict JSON payload
  at `call_data.get`, or an `openai.APIError` in the final-answer call,
  which only `(json.JSONDecodeError, KeyError)` guards). -/
  | crashed : Outcome
  /-- The reply script ran out while the loop was awaiting the provider:
  the run is still in flight, no terminal event was yielded. -/
  | starved : Outcome

/-- The loop-carried state: the message history, the metrics dictionary and
the attempt counter (which the source only interpolates into log and event
text — it bounds nothing). -/
structure AgentState where
  messages : List MsgV2
  metrics : Metrics
  attempt : Nat

/-- The shared body of `solve_multi_pass` (`single = false`) and
`solve_single_pass` (`single = true`): per iteration — yield `propose`,
await the provider (`APIError` ⇒ yield the terminal `error` event and
return), count the call in `llm_calls`, add the usage tokens, yield
`model_response`, run the extraction block, and then execute/verify.  On
verify success the loop issues one more provider call for the final answer —
after an extra `propose` event in the multi-pass loop only — and that call's
tokens are added but, reusing the request id, it is *not* counted in
`llm_calls` (both sources say so in a comment); on verify failure it yields
`failure` (multi) or `patch` (single) and loops; on a parse failure it
yields `failure`, injects an `{"error": "Invalid tool call format"}` tool
message and loops; with no marker the turn itself is the terminal
answer. -/
def solveLoop (single : Bool) (jsonLoads : String → Option PyVal)
    (tool : PyDict → PyVal) :
    List LLMReply → AgentState → List Event × Outcome
  | [], st => ([Event.propose st.metrics], Outcome.starved)
  | LLMReply.apiError e :: _, st =>
      ([Event.propose st.metrics, Event.error ("vLLM server error: " ++ e)],
        Outcome.error ("vLLM server error: " ++ e))
  | LLMReply.reply content p c :: rest, st =>
      let m1 : Metrics :=
        { prompt_tokens := st.metrics.prompt_tokens + p,
          completion_tokens := st.metrics.completion_tokens + c,
          llm_calls := st.metrics.llm_calls + 1 }
      let msgs1 := st.messages ++ [⟨"assistant", MsgContent.text content⟩]
      let pre := [Event.propose st.metrics, Event.model_response content m1]
      match extractToolCall jsonLoads content with
      | ExtractResult.noCall =>
          (pre ++ [Event.success content m1], Outcome.success content m1)
      | ExtractResult.badParse =>
          let st' : AgentState :=
            ⟨msgs1 ++ [⟨"tool", MsgContent.json
                (PyVal.dict [("error", PyVal.str "Invalid tool call format")])⟩],
              m1, st.attempt + 1⟩
          let r := solveLoop single jsonLoads tool rest st'
          (pre ++ [Event.failure m1] ++ r.1, r.2)
      | ExtractResult.crashed => (pre, Outcome.crashed)
      | ExtractResult.call d =>
          let result := tool d
          let mid := pre ++ [Event.execute d m1, Event.tool_result result m1]
          if verify result then
            let finalPre := mid ++ (if single then [] else [Event.propose m1])
            match rest with
            | [] => (finalPre, Outcome.starved)
            | LLMReply.apiError _ :: _ => (finalPre, Outcome.crashed)
            | LLMReply.reply f fp fc :: _ =>
                let m2 : Metrics :=
                  { m1 with prompt_tokens := m1.prompt_tokens + fp,
                            completion_tokens := m1.completion_tokens + fc }
                (finalPre ++ [Event.success f m2], Outcome.success f m2)
          else
            let st' : AgentState :=
              ⟨msgs1 ++ [⟨"tool", MsgContent.json result⟩], m1, st.attempt + 1⟩
            let r := solveLoop single jsonLoads tool rest st'
            (mid ++ [(if single then Event.patch m1 else Event.failure m1)]
              ++ r.1, r.2)

/-- The multi-pass system prompt (src/app/agent.py lines 43–61).  Its prose
steers the real model but never the loop's control flow — the provider is a
script here — so only its first sentence is reproduced. -/
def SYSTEM_PROMPT_MULTI_PASS : String :=
  "You are an agent designed for a specific demo."

/-- The single-pass system prompt (src/app/agent.py lines 63–81), likewise
abridged. -/
def SYSTEM_PROMPT_SINGLE_PASS : String :=
  "You are an agent designed for a specific demo."

/-- Source `solve_multi_pass` (src/app/agent.py): seed the history with the
multi-pass system prompt and the user prompt, then run the loop. -/
def solve_multi_pass (jsonLoads : String → Option PyVal)
    (tool : PyDict → PyVal) (prompt : String) (script : List LLMReply) :
    List Event × Outcome :=
  solveLoop false jsonLoads tool script
    ⟨[⟨"system", MsgContent.text SYSTEM_PROMPT_MULTI_PASS⟩,
      ⟨"user", MsgContent.text prompt⟩], Metrics.zero, 0⟩

/-- Source `solve_single_pass` (src/app/agent.py): seed the history with the
single-pass system prompt and the tool-signature-prefixed user prompt, then
run the loop in single-pass mode. -/
def solve_single_pass (jsonLoads : String → Option PyVal)
    (tool : PyDict → PyVal) (tool_signature prompt : String)
    (script : List LLMReply) : List Event × Outcome :=
  solveLoop true jsonLoads tool script
    ⟨[⟨"system", MsgContent.text SYSTEM_PROMPT_SINGLE_PASS⟩,
      ⟨"user", MsgContent.text ("TOOL_SIGNATURE: " ++ tool_signature
        ++ "\n\nUser Prompt: " ++ prompt)⟩], Metrics.zero, 0⟩

/-! ### Event counting -/

/-- Is this a `propose` event? -/
def Event.isPropose : Event → Bool
  | Event.propose _ => true
  | _ => false

/-- Is this the terminal `success` event? -/
def Event.isSuccess : Event → Bool
  | Event.success _ _ => true
  | _ => false

/-- Is this the terminal `error` event? -/
def Event.isError : Event → Bool
  | Event.error _ => true
  | _ => false

/-- Is this a `tool_result` event whose result fails verification — i.e. a
`VerificationFailure` in the spec's taxonomy? -/
def Event.isVerifyFailure : Event → Bool
  | Event.tool_result r _ => !(verify r)
  | _ => false

/-- The number of `propose` transitions in a run's event trace. -/
def countPropose (evs : List Event) : Nat := evs.countP Event.isPropose

/-- The number of `success` events in a run's event trace. -/
def countSuccess (evs : List Event) : Nat := evs.countP Event.isSuccess

/-- The number of `error` events in a run's event trace. -/
def countError (evs : List Event) : Nat := evs.countP Event.isError

/-- The number of verification failures in a run's event trace. -/
def countVerifyFailures (evs : List Event) : Nat :=
  evs.countP Event.isVerifyFailure

/-! ## Concrete fixtures

Closed instances (for witnesses and counterexamples) built from the demo's
own scenario: the `sql_query` tool queried with the wrong column
`conversions`, corrected to `convs` (src/app/agent.py prompts,
src/tests/test_agent.py). -/

/-- A well-formed `TOOL_CALL` JSON payload, as the demo's model emits it. -/
def payloadConvs : String :=
  "\x7b\"name\": \"sql_query\", \"args\": \x7b\"column\": \"convs\"\x7d\x7d"

/-- The demo's first, wrong payload (column `conversions`). -/
def payloadConversions : String :=
  "\x7b\"name\": \"sql_query\", \"args\": \x7b\"column\": \"conversions\"\x7d\x7d"

/-- What `json.loads` returns on `payloadConvs`. -/
def parsedConvs : PyVal :=
  PyVal.dict [("name", PyVal.str "sql_query"),
    ("args", PyVal.dict [("column", PyVal.str "convs")])]

/-- What `json.loads` returns on `payloadConversions`. -/
def parsedConversions : PyVal :=
  PyVal.dict [("name", PyVal.str "sql_query"),
    ("args", PyVal.dict [("column", PyVal.str "conversions")])]

/-- A concrete stand-in for `json.loads`: parses the two demo payloads and
rejects everything else. -/
def jsonLoadsFix (s : String) : Option PyVal :=
  if s = payloadConvs then Option.some parsedConvs
  else if s = payloadConversions then Option.some parsedConversions
  else Option.none

/-- A second stand-in that agrees with `jsonLoadsFix` on `payloadConvs` but
differs elsewhere (it accepts `"other"`). -/
def jsonLoadsFix' (s : String) : Option PyVal :=
  if s = "other" then Option.some PyVal.none else jsonLoadsFix s

/-- The standardized call dict extracted from `payloadConvs`. -/
def stdCall : PyDict :=
  [("name", PyVal.str "sql_query"),
   ("args", PyVal.dict [("column", PyVal.str "convs")])]

/-- A model turn carrying the correct call. -/
def turnCall : String := "TOOL_CALL: " ++ payloadConvs

/-- A model turn carrying the wrong-column call. -/
def turnBad : String := "TOOL_CALL: " ++ payloadConversions

/-- The standardized call dict extracted from `payloadConversions`. -/
def stdCallBad : PyDict :=
  [("name", PyVal.str "sql_query"),
   ("args", PyVal.dict [("column", PyVal.str "conversions")])]

/-- A tool that always fails verification, with the demo's hint. -/
def toolFail (_ : PyDict) : PyVal :=
  PyVal.dict [("ok", PyVal.bool false),
    ("hint", PyVal.str "Did you mean \x27convs\x27?")]

/-- A tool that always succeeds (the demo's successful `sql_query`). -/
def toolOk (_ : PyDict) : PyVal :=
  PyVal.dict [("ok", PyVal.bool true), ("data", PyVal.int 12345)]

/-- The demo's `sql_query`, reduced to the column lookup: succeeds on
`convs`, fails with the corrective hint otherwise. -/
def toolSql (d : PyDict) : PyVal :=
  match pyGet d "args" (PyVal.dict []) with
  | PyVal.dict args =>
      match args.lookup "column" with
      | Option.some (PyVal.str "convs") =>
          PyVal.dict [("ok", PyVal.bool true), ("data", PyVal.int 12345)]
      | _ => PyVal.dict [("ok", PyVal.bool false),
          ("hint", PyVal.str "Did you mean \x27convs\x27?")]
  | _ => PyVal.dict [("ok", PyVal.bool false),
      ("hint", PyVal.str "Did you mean \x27convs\x27?")]

/-- The demo's user prompt. -/
def demoPrompt : String := "How many conversions did we get this week?"

/-- The demo's failing call: `sql_query(column="conversions")`. -/
def demoCall : ToolCallV2 := ⟨"sql_query", [("column", PyVal.str "conversions")]⟩

/-- The demo's failed result with its corrective hint. -/
def demoFail : ToolResultV2 :=
  { success := PyVal.bool false, hint := PyVal.str "Did you mean \x27convs\x27?" }

/-- The pattern `extract_learning_pattern` learns from `demoFail`. -/
def demoPattern : LearningPattern :=
  { pattern_type := "hint",
    context := patternContext demoCall.name demoCall.args,
    solution := demoFail.hint, confidence := INITIAL_CONFIDENCE }

/-- The serialized failed tool result, as `record_tool_interaction` appends
it to memory. -/
def demoToolEntries : PyDict :=
  [("ok", PyVal.bool false), ("hint", PyVal.str "Did you mean \x27convs\x27?")]

/-- A memory whose most recent tool-role message is the serialized failure. -/
def demoMsgs : List MsgV2 :=
  [⟨"user", MsgContent.text demoPrompt⟩,
   ⟨"assistant", MsgContent.text turnCall⟩,
   ⟨"tool", MsgContent.json (PyVal.dict demoToolEntries)⟩]

/-- The metrics update of one counted provider call. -/
def stepMetrics (m : Metrics) (p c : Nat) : Metrics :=
  ⟨m.prompt_tokens + p, m.completion_tokens + c, m.llm_calls + 1⟩

/-- The metrics update of the final-answer call (tokens added, `llm_calls`
deliberately not bumped). -/
def finalMetrics (m : Metrics) (p c : Nat) : Metrics :=
  ⟨m.prompt_tokens + p, m.completion_tokens + c, m.llm_calls⟩

/-- A reply that keeps the loop going: a completion whose extraction either
fails to parse or yields a call failing verification. -/
def keepsLooping (jl : String → Option PyVal) (tool : PyDict → PyVal)
    (r : LLMReply) : Prop :=
  ∃ s p c, r = LLMReply.reply s p c ∧
    (extractToolCall jl s = ExtractResult.badParse ∨
      ∃ d, extractToolCall jl s = ExtractResult.call d ∧ verify (tool d) = false)


/-! ## C8 — the verification predicate -/

/-- Claim C8: `verify(r)` returns true iff `r` is a dict whose `"ok"` key holds
exactly `True`; every non-dict value, dict missing the key, or dict whose
`"ok"` value is anything other than `True` yields false. -/
theorem verify_ok_iff (r : PyVal) :
    verify r = true ↔
      ∃ es, r = PyVal.dict es ∧ es.lookup "ok" = Option.some (PyVal.bool true) := by
  constructor
  · intro h
    cases r with
    | dict es =>
        refine ⟨es, rfl, ?_⟩
        simp only [verify] at h
        split at h
        · next heq => exact heq
        · exact absurd h (by simp)
    | none => simp [verify] at h
    | bool b => simp [verify] at h
    | int n => simp [verify] at h
    | str s => simp [verify] at h
    | list xs => simp [verify] at h
  · rintro ⟨es, rfl, hl⟩
    simp [verify, hl]

/-- C8, evaluated: a dict with `"ok": True` verifies; `"ok": False`, a
truthy non-`True` value (`1`), a missing key, and a non-dict all fail. -/
theorem verify_ok_iff_witness :
    verify (PyVal.dict [("ok", PyVal.bool true)]) = true ∧
    verify (PyVal.dict [("ok", PyVal.bool false)]) = false ∧
    verify (PyVal.dict [("ok", PyVal.int 1)]) = false ∧
    verify (PyVal.dict [("data", PyVal.int 3)]) = false ∧
    verify (PyVal.str "ok") = false :=
  ⟨(verify_ok_iff (PyVal.dict [("ok", PyVal.bool true)])).mpr
      ⟨[("ok", PyVal.bool true)], rfl, rfl⟩, rfl, rfl, rfl, rfl⟩

/-! ## C10 — tool success-rate counters -/

/-- Reachable counters never report more successes than calls. -/
lemma record_execution_le (outcomes : List Bool) (st : ToolStats)
    (h : st.successCount ≤ st.callCount) :
    (outcomes.foldl record_execution st).successCount ≤
      (outcomes.foldl record_execution st).callCount := by
  induction outcomes generalizing st with
  | nil => exact h
  | cons b bs ih =>
      apply ih
      cases b <;> simp [record_execution] <;> omega

/-- Claim C10: For every sequence of recorded executions, `success_rate` is
well-defined with no division by zero: it is `0` when the call count is
zero and `successCount / callCount` otherwise, and it always lies in
`[0, 1]`. -/
theorem success_rate_bounds (outcomes : List Bool) :
    ((statsAfter outcomes).callCount = 0 → success_rate (statsAfter outcomes) = 0) ∧
    ((statsAfter outcomes).callCount ≠ 0 →
      success_rate (statsAfter outcomes) =
        ((statsAfter outcomes).successCount : ℚ) / ((statsAfter outcomes).callCount : ℚ)) ∧
    0 ≤ success_rate (statsAfter outcomes) ∧
    success_rate (statsAfter outcomes) ≤ 1 := by
  have hle : (statsAfter outcomes).successCount ≤ (statsAfter outcomes).callCount :=
    record_execution_le outcomes ToolStats.initial (by simp [ToolStats.initial])
  refine ⟨fun h => by simp [success_rate, h], fun h => by simp [success_rate, h], ?_, ?_⟩
  · unfold success_rate
    split
    · exact le_refl 0
    · positivity
  · unfold success_rate
    split
    · exact zero_le_one
    · next h =>
        rw [div_le_one (by exact_mod_cast Nat.pos_of_ne_zero h)]
        exact_mod_cast hle

/-- C10, evaluated after one success and one failure: the rate is `1/2` and
lies in `[0, 1]`; a fresh tool reports `0`. -/
theorem success_rate_bounds_witness :
    0 ≤ success_rate (statsAfter [true, false]) ∧
    success_rate (statsAfter [true, false]) ≤ 1 ∧
    success_rate (statsAfter [true, false]) = 1 / 2 ∧
    success_rate (statsAfter []) = 0 :=
  ⟨(success_rate_bounds [true, false]).2.2.1,
   (success_rate_bounds [true, false]).2.2.2,
   by norm_num [success_rate, statsAfter, record_execution, ToolStats.initial],
   (success_rate_bounds []).1 (by decide)⟩

/-! ## C3 — one recognized call per turn, from the first marker -/

/-- Claim C3: For a model turn containing the sentinel marker: the candidate
payload is the (stripped) text after the *first* marker occurrence; the
extraction depends only on the parse of that one payload, so later
occurrences are never speculatively parsed (any parser agreeing on that
payload extracts the same); and when the payload parses to an object,
exactly one call is recognized, its arguments taken from the `args` key,
else the `arguments` key, else the empty map. -/
theorem extract_one_call_first_marker (jl jl' : String → Option PyVal)
    (s : String) (es : PyDict)
    (hm : hasMarker s = true)
    (hagree : jl' (pyStrip (afterMarker s)) = jl (pyStrip (afterMarker s)))
    (hp : jl (pyStrip (afterMarker s)) = Option.some (PyVal.dict es)) :
    extractToolCall jl s = ExtractResult.call (pySet es "args" (get_tool_args es)) ∧
    extractToolCall jl' s = extractToolCall jl s ∧
    (es.lookup "args" = Option.none → es.lookup "arguments" = Option.none →
      get_tool_args es = PyVal.dict []) := by
  refine ⟨?_, ?_, ?_⟩
  · simp [extractToolCall, hm, hp]
  · simp [extractToolCall, hm, hp, hagree]
  · intro h1 h2
    simp [get_tool_args, pyGet, h1, h2]

/-- C3, evaluated: on a turn with free text before the marker, the two
concrete parsers (which differ away from the first payload) extract the same
single call with standardized `args`; and with two markers in one turn, the
candidate payload handed to the parser is everything after the *first*
occurrence (later markers are part of it, not parsed on their own). -/
theorem extract_one_call_first_marker_witness :
    extractToolCall jsonLoadsFix ("I will query now. " ++ turnCall) =
      ExtractResult.call stdCall ∧
    extractToolCall jsonLoadsFix' ("I will query now. " ++ turnCall) =
      extractToolCall jsonLoadsFix ("I will query now. " ++ turnCall) ∧
    pyStrip (afterMarker ("say TOOL_CALL: A TOOL_CALL: B")) = "A TOOL_CALL: B" := by
  have h := extract_one_call_first_marker jsonLoadsFix jsonLoadsFix'
    ("I will query now. " ++ turnCall)
    [("name", PyVal.str "sql_query"), ("args", PyVal.dict [("column", PyVal.str "convs")])]
    (by decide) (by rfl) (by rfl)
  exact ⟨by rfl, h.2.1, by decide⟩

/-! ## C4 — executing an unknown tool name -/

/-- A character list starts with itself (any continuation). -/
lemma startsWith_append (xs ys : List Char) : startsWith (xs ++ ys) xs = true := by
  induction xs with
  | nil => simp [startsWith]
  | cons c cs ih => simp [startsWith, ih]

/-- Lemma: `splitAtFirst` finds a pattern that occurs anywhere in the list. -/
lemma splitAtFirst_isSome (pat pre post : List Char) :
    (splitAtFirst pat (pre ++ (pat ++ post))).isSome = true := by
  induction pre with
  | nil =>
      cases pat with
      | nil =>
          cases post with
          | nil => simp [splitAtFirst]
          | cons c cs => simp [splitAtFirst, startsWith]
      | cons p ps =>
          rw [List.nil_append, List.cons_append]
          have hsw : startsWith (p :: (ps ++ post)) (p :: ps) = true := by
            have h := startsWith_append (p :: ps) post
            rwa [List.cons_append] at h
          simp [splitAtFirst, hsw]
  | cons c cs ih =>
      rw [List.cons_append]
      simp only [splitAtFirst]
      split
      · simp
      · cases h : splitAtFirst pat (cs ++ (pat ++ post)) with
        | some pr => cases pr; simp
        | none => rw [h] at ih; simp at ih

/-- A string occurs as a substring of any string built around it. -/
lemma strContains_around (pre s post : String) :
    strContains (pre ++ s ++ post) s = true := by
  have h := splitAtFirst_isSome s.toList pre.toList post.toList
  simpa [strContains, String.toList, String.data_append, List.append_assoc] using h

/-- Claim C4, amended: Executing a recognized call whose name is not in the
registry returns a failed result that flows through verification like any
other failure: in src/app/tools.py the result is
`{"ok": False, "hint": "Tool '<name>' not found."}` — the hint carries the
unknown name but lists no known tool names; in src/agent_v2/core/tools.py
the result is `{"ok": False, "error": "Tool '<name>' not found",
"available_tools": [...]}` — the known names travel in the separate
`available_tools` field, not in a hint.  Either way `verify` rejects the
result, and the orchestration loop treats it as a verification failure
(a `failure` event and another round), not as a terminal error. -/
theorem unknown_tool_failed_result (impl : String → PyVal → PyVal)
    (implV2 : String → PyDict → PyVal) (call : PyDict) (s : String)
    (args : PyDict)
    (hname : pyGet call "name" PyVal.none = PyVal.str s)
    (h1 : TOOL_REGISTRY.contains s = false)
    (h2 : V2_DEFAULT_TOOLS.contains s = false) :
    run_tool impl call =
      PyVal.dict [("ok", PyVal.bool false),
        ("hint", PyVal.str ("Tool \x27" ++ s ++ "\x27 not found."))] ∧
    strContains ("Tool \x27" ++ s ++ "\x27 not found.") s = true ∧
    verify (run_tool impl call) = false ∧
    execute_tool implV2 (PyVal.str s) args =
      PyVal.dict [("ok", PyVal.bool false),
        ("error", PyVal.str ("Tool \x27" ++ s ++ "\x27 not found")),
        ("available_tools", PyVal.list (V2_DEFAULT_TOOLS.map PyVal.str))] ∧
    verify (execute_tool implV2 (PyVal.str s) args) = false ∧
    (∀ (jl : String → Option PyVal) (content : String) (ptok ctok : Nat)
        (rest : List LLMReply) (st : AgentState),
      extractToolCall jl content = ExtractResult.call call →
      ∃ st' : AgentState,
        solveLoop false jl (run_tool impl) (LLMReply.reply content ptok ctok :: rest) st =
          (Event.propose st.metrics ::
            Event.model_response content ⟨st.metrics.prompt_tokens + ptok,
              st.metrics.completion_tokens + ctok, st.metrics.llm_calls + 1⟩ ::
            Event.execute call ⟨st.metrics.prompt_tokens + ptok,
              st.metrics.completion_tokens + ctok, st.metrics.llm_calls + 1⟩ ::
            Event.tool_result (run_tool impl call) ⟨st.metrics.prompt_tokens + ptok,
              st.metrics.completion_tokens + ctok, st.metrics.llm_calls + 1⟩ ::
            Event.failure ⟨st.metrics.prompt_tokens + ptok,
              st.metrics.completion_tokens + ctok, st.metrics.llm_calls + 1⟩ ::
            (solveLoop false jl (run_tool impl) rest st').1,
          (solveLoop false jl (run_tool impl) rest st').2)) := by
  have hrun : run_tool impl call =
      PyVal.dict [("ok", PyVal.bool false),
        ("hint", PyVal.str ("Tool \x27" ++ s ++ "\x27 not found."))] := by
    simp only [run_tool, hname]
    rw [h1]
    simp
  have hv2 : execute_tool implV2 (PyVal.str s) args =
      PyVal.dict [("ok", PyVal.bool false),
        ("error", PyVal.str ("Tool \x27" ++ s ++ "\x27 not found")),
        ("available_tools", PyVal.list (V2_DEFAULT_TOOLS.map PyVal.str))] := by
    simp only [execute_tool]
    rw [h2]
    simp
  have hcontains : strContains ("Tool \x27" ++ s ++ "\x27 not found.") s = true := by
    simpa using strContains_around "Tool \x27" s "\x27 not found."
  refine ⟨hrun, hcontains, by rw [hrun]; rfl, hv2, by rw [hv2]; rfl, ?_⟩
  intro jl content ptok ctok rest st hex
  refine ⟨⟨st.messages ++ [⟨"assistant", MsgContent.text content⟩,
    ⟨"tool", MsgContent.json (run_tool impl call)⟩],
    ⟨st.metrics.prompt_tokens + ptok, st.metrics.completion_tokens + ctok,
      st.metrics.llm_calls + 1⟩, st.attempt + 1⟩, ?_⟩
  simp only [solveLoop, hex]
  rw [show verify (run_tool impl call) = false from by rw [hrun]; rfl]
  simp

/-- Claim C4, counterexample to the claim as stated: Calling the unregistered
tool `foo` through src/app/tools.py's `run_tool` yields a failed result whose
hint contains `foo` — but the hint does *not* list the registry's known tool
names (`sql_query`, `web_search`, `analyze_data`, `solve_equation`): it is
exactly `Tool 'foo' not found.`. -/
theorem run_tool_unknown_hint_cex :
    run_tool (fun _ _ => PyVal.none) [("name", PyVal.str "foo")] =
      PyVal.dict [("ok", PyVal.bool false),
        ("hint", PyVal.str "Tool \x27foo\x27 not found.")] ∧
    strContains "Tool \x27foo\x27 not found." "foo" = true ∧
    (strContains "Tool \x27foo\x27 not found." "sql_query" ||
      strContains "Tool \x27foo\x27 not found." "web_search" ||
      strContains "Tool \x27foo\x27 not found." "analyze_data" ||
      strContains "Tool \x27foo\x27 not found." "solve_equation") = false :=
  ⟨by rfl, by decide, by decide⟩

/-- C4, evaluated at the unknown name `foo` (with arbitrary registered-tool
bodies): the app registry's hinted failure, its rejection by `verify`, and
the v2 registry's `available_tools` field. -/
theorem unknown_tool_failed_result_witness :
    run_tool (fun _ _ => PyVal.none) [("name", PyVal.str "foo")] =
      PyVal.dict [("ok", PyVal.bool false),
        ("hint", PyVal.str "Tool \x27foo\x27 not found.")] ∧
    verify (run_tool (fun _ _ => PyVal.none) [("name", PyVal.str "foo")]) = false ∧
    execute_tool (fun _ _ => PyVal.none) (PyVal.str "foo") [] =
      PyVal.dict [("ok", PyVal.bool false),
        ("error", PyVal.str "Tool \x27foo\x27 not found"),
        ("available_tools",
          PyVal.list [PyVal.str "sql_query", PyVal.str "web_search"])] := by
  have h := unknown_tool_failed_result (fun _ _ => PyVal.none)
    (fun _ _ => PyVal.none) [("name", PyVal.str "foo")] "foo" []
    (by rfl) (by decide) (by decide)
  exact ⟨h.1, h.2.2.1, h.2.2.2.1⟩

/-! ## C5 — learning-pattern extraction and dedup -/

/-- Lemma: `bumpFirst` finds nothing and changes nothing when no stored pattern has
the context. -/
lemma bumpFirst_of_not_mem (ctx : String) (l : List LearningPattern)
    (h : ∀ q ∈ l, q.context ≠ ctx) : bumpFirst ctx l = (Option.none, l) := by
  induction l with
  | nil => rfl
  | cons p ps ih =>
      have hp : p.context ≠ ctx := h p (by simp)
      simp [bumpFirst, hp, ih (fun q hq => h q (List.mem_cons_of_mem _ hq))]

/-- Lemma: `bumpFirst` bumps exactly the first pattern carrying the context, in
place. -/
lemma bumpFirst_found (ctx : String) (pre : List LearningPattern)
    (p : LearningPattern) (post : List LearningPattern)
    (hpre : ∀ q ∈ pre, q.context ≠ ctx) (hp : p.context = ctx) :
    bumpFirst ctx (pre ++ p :: post) =
      (Option.some { p with usage_count := p.usage_count + 1 },
        pre ++ { p with usage_count := p.usage_count + 1 } :: post) := by
  induction pre with
  | nil => simp [bumpFirst, hp]
  | cons q qs ih =>
      have hq : q.context ≠ ctx := hpre q (by simp)
      simp [bumpFirst, hq, ih (fun r hr => hpre r (List.mem_cons_of_mem _ hr))]

/-- Claim C5: `extract_learning_pattern` returns nothing and stores nothing
when the result succeeded or carries no (truthy) hint; when a stored pattern
already has the identical context key (tool name + argument snapshot) the
first such pattern's `usage_count` is incremented in place and it is
returned, with no duplicate appended; only when no pattern has that context
is a new one appended — type `"hint"`, solution equal to the failure's hint,
the fixed initial confidence `0.8`. -/
theorem extract_learning_pattern_cases (store : List LearningPattern)
    (call : ToolCallV2) (res : ToolResultV2) :
    ((pyTruthy res.success = true ∨ pyTruthy res.hint = false) →
      extract_learning_pattern store call res = (Option.none, store)) ∧
    (pyTruthy res.success = false → pyTruthy res.hint = true →
      ∀ pre p post, store = pre ++ p :: post →
        (∀ q ∈ pre, q.context ≠ patternContext call.name call.args) →
        p.context = patternContext call.name call.args →
        extract_learning_pattern store call res =
          (Option.some { p with usage_count := p.usage_count + 1 },
            pre ++ { p with usage_count := p.usage_count + 1 } :: post)) ∧
    (pyTruthy res.success = false → pyTruthy res.hint = true →
      (∀ q ∈ store, q.context ≠ patternContext call.name call.args) →
      extract_learning_pattern store call res =
        (Option.some
            { pattern_type := "hint",
              context := patternContext call.name call.args,
              solution := res.hint, confidence := INITIAL_CONFIDENCE },
          store ++
            [{ pattern_type := "hint",
               context := patternContext call.name call.args,
               solution := res.hint, confidence := INITIAL_CONFIDENCE }])) := by
  refine ⟨?_, ?_, ?_⟩
  · intro h
    rcases h with h | h <;> simp [extract_learning_pattern, h]
  · intro hs hh pre p post hstore hpre hp
    subst hstore
    simp [extract_learning_pattern, hs, hh,
      bumpFirst_found (patternContext call.name call.args) pre p post hpre hp]
  · intro hs hh hnone
    simp [extract_learning_pattern, hs, hh,
      bumpFirst_of_not_mem (patternContext call.name call.args) store hnone]

/-- C5, evaluated on the spec's own scenario: the first failure with hint
`Did you mean 'convs'?` stores a pattern whose solution is that hint; an
identical second failure increments that pattern's `usage_count` instead of
appending a duplicate; and a successful result stores nothing. -/
theorem extract_learning_pattern_cases_witness :
    extract_learning_pattern [] demoCall demoFail =
      (Option.some demoPattern, [demoPattern]) ∧
    extract_learning_pattern [demoPattern] demoCall demoFail =
      (Option.some { demoPattern with usage_count := 1 },
        [{ demoPattern with usage_count := 1 }]) ∧
    extract_learning_pattern [] demoCall
      { success := PyVal.bool true, data := PyVal.int 12345 } =
      (Option.none, []) := by
  have h := extract_learning_pattern_cases [] demoCall demoFail
  have h1 := extract_learning_pattern_cases [demoPattern] demoCall demoFail
  have h2 := extract_learning_pattern_cases [] demoCall
    { success := PyVal.bool true, data := PyVal.int 12345 }
  refine ⟨?_, ?_, h2.1 (Or.inl (by rfl))⟩
  · have hx := h.2.2 (by rfl) (by decide) (by simp)
    simpa [demoPattern] using hx
  · have hx := h1.2.1 (by rfl) (by decide) [] demoPattern [] (by simp)
      (by simp) (by rfl)
    simpa using hx

/-! ## C6 — when a learning alert fires -/

/-- Lemma: `find?` only looks at predicate values on the list's elements. -/
lemma find?_congr_pred {α : Type} (p q : α → Bool) (l : List α)
    (h : ∀ a ∈ l, p a = q a) : l.find? p = l.find? q := by
  induction l with
  | nil => rfl
  | cons a as ih =>
      have ha := h a (by simp)
      cases hq : q a with
      | true =>
          rw [List.find?_cons_of_pos _ (ha.trans hq), List.find?_cons_of_pos _ hq]
      | false =>
          have ha' : ¬p a = true := by rw [ha, hq]; simp
          have hq' : ¬q a = true := by rw [hq]; simp
          rw [List.find?_cons_of_neg _ ha', List.find?_cons_of_neg _ hq']
          exact ih (fun b hb => h b (List.mem_cons_of_mem _ hb))

/-- Membership through the stable insert. -/
lemma mem_insertByConfidence (x a : LearningPattern) (l : List LearningPattern) :
    a ∈ insertByConfidence x l ↔ a = x ∨ a ∈ l := by
  induction l with
  | nil => simp [insertByConfidence]
  | cons q qs ih =>
      simp only [insertByConfidence]
      split
      · simp only [List.mem_cons, ih]
        tauto
      · simp [List.mem_cons]

/-- Membership through the stable sort. -/
lemma mem_sortByConfidence (a : LearningPattern) (l : List LearningPattern) :
    a ∈ sortByConfidence l ↔ a ∈ l := by
  induction l with
  | nil => simp [sortByConfidence]
  | cons x xs ih => simp [sortByConfidence, mem_insertByConfidence, ih]

/-- A relevant pattern is a stored pattern. -/
lemma mem_store_of_mem_relevant (store : List LearningPattern)
    (tool_call : ToolCallV2) (q : LearningPattern)
    (hq : q ∈ get_relevant_patterns store tool_call) : q ∈ store := by
  have := (mem_sortByConfidence q _).mp hq
  exact (List.mem_filter.mp this).1

/-- The alert scan reaches an alert iff some scanned pattern's solution is a
substring of the (string) hint; with string solutions it never raises. -/
lemma findAlert_characterization (hint : PyVal) (hs : String)
    (hh : hint = PyVal.str hs) (ps : List LearningPattern)
    (hsol : ∀ p ∈ ps, ∃ ss, p.solution = PyVal.str ss) :
    ((∃ a, findAlert hint ps = LearningCheck.alert a) ↔
      ∃ p ∈ ps, ∃ ss, p.solution = PyVal.str ss ∧ strContains hs ss = true) ∧
    findAlert hint ps ≠ LearningCheck.raised := by
  induction ps with
  | nil => simp [findAlert]
  | cons p ps' ih =>
      obtain ⟨ss, hss⟩ := hsol p (List.mem_cons_self p ps')
      have hin : pyIn p.solution hint = Option.some (strContains hs ss) := by
        rw [hss, hh]; rfl
      have ih' := ih (fun q hq => hsol q (List.mem_cons_of_mem _ hq))
      cases hc : strContains hs ss with
      | true =>
          constructor
          · constructor
            · intro _
              exact ⟨p, List.mem_cons_self p ps', ss, hss, hc⟩
            · intro _
              refine ⟨"LEARNING ALERT: Previous attempt failed with hint \x27"
                ++ pyStr hint ++ "\x27. Apply learned pattern: "
                ++ pyStr p.solution, ?_⟩
              simp [findAlert, hin, hc]
          · simp [findAlert, hin, hc]
      | false =>
          have heq : findAlert hint (p :: ps') = findAlert hint ps' := by
            simp [findAlert, hin, hc]
          refine ⟨?_, by rw [heq]; exact ih'.2⟩
          rw [heq, ih'.1]
          constructor
          · rintro ⟨q, hq, ss', hss', hc'⟩
            exact ⟨q, List.mem_cons_of_mem _ hq, ss', hss', hc'⟩
          · rintro ⟨q, hq, ss', hss', hc'⟩
            rcases List.mem_cons.mp hq with rfl | hq'
            · rw [hss] at hss'
              cases hss'
              rw [hc] at hc'
              cases hc'
            · exact ⟨q, hq', ss', hss', hc'⟩

/-- When every tool message parses as a JSON dict, `get_last_tool_result`
reads exactly the most recent tool-role message. -/
lemma get_last_tool_result_of_wf (msgs : List MsgV2)
    (htool : ∀ m ∈ msgs, m.role = "tool" →
      ∃ es, m.content = MsgContent.json (PyVal.dict es)) :
    (lastToolMsg msgs = Option.none ∧
      get_last_tool_result msgs = Except.ok Option.none) ∨
    (∃ m es, lastToolMsg msgs = Option.some m ∧
      m.content = MsgContent.json (PyVal.dict es) ∧
      get_last_tool_result msgs = Except.ok (Option.some
        { success := pyGet es "ok" (pyGet es "success" (PyVal.bool false)),
          data := pyGet es "data" PyVal.none,
          error := pyGet es "error" PyVal.none,
          hint := pyGet es "hint" PyVal.none })) := by
  have hfind : msgs.reverse.find? (fun m =>
      m.role == "tool" && match m.content with
        | MsgContent.text _ => false
        | MsgContent.json _ => true) =
      msgs.reverse.find? (fun m => m.role == "tool") := by
    apply find?_congr_pred
    intro m hm
    by_cases hr : m.role = "tool"
    · obtain ⟨es, hc⟩ := htool m (List.mem_reverse.mp hm) hr
      simp [hr, hc]
    · simp [hr]
  cases hf : msgs.reverse.find? (fun m => m.role == "tool") with
  | none =>
      left
      refine ⟨hf, ?_⟩
      simp only [get_last_tool_result, hfind, hf]
  | some m =>
      right
      have hmem : m ∈ msgs.reverse := List.mem_of_find?_eq_some hf
      have hrole : m.role = "tool" := by
        have := List.find?_some hf
        simpa using this
      obtain ⟨es, hc⟩ := htool m (List.mem_reverse.mp hmem) hrole
      refine ⟨m, es, hf, hc, ?_⟩
      simp only [get_last_tool_result, hfind, hf, hc]

/-- Claim C6: `should_apply_learning` returns an alert string iff (a) some
stored pattern is relevant to the call's tool name, (b) the most recent
tool-role message in memory is a failure (falsy success flag) carrying a
truthy hint, and (c) some relevant pattern's solution text is a substring of
that hint; in every other case it returns nothing (and, the source method
being read-only on its argument, it never mutates the call's arguments —
the embedding returns only the check's outcome).  The hypotheses state the
memory invariants the agent maintains: tool messages are serialized result
dicts whose `hint` is a string or `None`, and stored solutions are
strings. -/
theorem should_apply_learning_alert_iff (store : List LearningPattern)
    (msgs : List MsgV2) (call : ToolCallV2)
    (htool : ∀ m ∈ msgs, m.role = "tool" →
      ∃ es, m.content = MsgContent.json (PyVal.dict es) ∧
        (pyGet es "hint" PyVal.none = PyVal.none ∨
          ∃ hs, pyGet es "hint" PyVal.none = PyVal.str hs))
    (hsol : ∀ q ∈ store, ∃ ss, q.solution = PyVal.str ss) :
    ((∃ a, should_apply_learning store msgs call = LearningCheck.alert a) ↔
      (get_relevant_patterns store call ≠ [] ∧
        ∃ m es hs, lastToolMsg msgs = Option.some m ∧
          m.content = MsgContent.json (PyVal.dict es) ∧
          pyTruthy (pyGet es "ok" (pyGet es "success" (PyVal.bool false))) = false ∧
          pyGet es "hint" PyVal.none = PyVal.str hs ∧ hs ≠ "" ∧
          ∃ q ∈ get_relevant_patterns store call, ∃ ss,
            q.solution = PyVal.str ss ∧ strContains hs ss = true)) ∧
    should_apply_learning store msgs call ≠ LearningCheck.raised := by
  have hsolRel : ∀ q ∈ get_relevant_patterns store call,
      ∃ ss, q.solution = PyVal.str ss :=
    fun q hq => hsol q (mem_store_of_mem_relevant store call q hq)
  by_cases hemp : (get_relevant_patterns store call).isEmpty
  · have hnone : should_apply_learning store msgs call = LearningCheck.noAlert := by
      simp [should_apply_learning, hemp]
    rw [hnone]
    constructor
    · constructor
      · rintro ⟨a, ha⟩
        cases ha
      · rintro ⟨hne, -⟩
        exact absurd (List.isEmpty_iff.mp hemp) hne
    · intro h
      cases h
  · have hwf := get_last_tool_result_of_wf msgs
      (fun m hm hr => ⟨(htool m hm hr).choose, (htool m hm hr).choose_spec.1⟩)
    rcases hwf with ⟨hlast, hglr⟩ | ⟨m, es, hlast, hc, hglr⟩
    · have hnone : should_apply_learning store msgs call = LearningCheck.noAlert := by
        simp [should_apply_learning, hemp, hglr]
      rw [hnone]
      constructor
      · constructor
        · rintro ⟨a, ha⟩
          cases ha
        · rintro ⟨-, m, es, hs, hm, -⟩
          rw [hlast] at hm
          cases hm
      · intro h
        cases h
    · -- the most recent tool message parsed to `es`
      have hhintwf : pyGet es "hint" PyVal.none = PyVal.none ∨
          ∃ hs, pyGet es "hint" PyVal.none = PyVal.str hs := by
        have hfind' : msgs.reverse.find? (fun mm => mm.role == "tool") =
            Option.some m := by
          simpa [lastToolMsg] using hlast
        have hmem : m ∈ msgs :=
          List.mem_reverse.mp (List.mem_of_find?_eq_some hfind')
        have hrole : m.role = "tool" := by
          simpa using List.find?_some hfind'
        obtain ⟨es', hc', hwf'⟩ := htool m hmem hrole
        rw [hc] at hc'
        cases hc'
        exact hwf'
      by_cases hsucc :
          pyTruthy (pyGet es "ok" (pyGet es "success" (PyVal.bool false))) = false
      · rcases hhintwf with hhn | ⟨hs, hhs⟩
        · -- hint is None: falsy, no alert
          have hnone : should_apply_learning store msgs call = LearningCheck.noAlert := by
            simp [should_apply_learning, hemp, hglr, hsucc, hhn, pyTruthy]
          rw [hnone]
          constructor
          · constructor
            · rintro ⟨a, ha⟩
              cases ha
            · rintro ⟨-, m', es', hs', hm', hc'', -, hh', -, -⟩
              rw [hlast] at hm'
              cases hm'
              rw [hc] at hc''
              cases hc''
              rw [hhn] at hh'
              cases hh'
          · intro h
            cases h
        · by_cases hhe : hs = ""
          · -- hint is the empty string: falsy, no alert
            subst hhe
            have hnone : should_apply_learning store msgs call = LearningCheck.noAlert := by
              simp [should_apply_learning, hemp, hglr, hsucc, hhs, pyTruthy]
            rw [hnone]
            constructor
            · constructor
              · rintro ⟨a, ha⟩
                cases ha
              · rintro ⟨-, m', es', hs', hm', hc'', -, hh', hne', -⟩
                rw [hlast] at hm'
                cases hm'
                rw [hc] at hc''
                cases hc''
                rw [hhs] at hh'
                cases hh'
                exact (hne' rfl).elim
            · intro h
              cases h
          · -- failure with truthy string hint: the scan runs
            have hptrue : pyTruthy (PyVal.str hs) = true := by
              simp [pyTruthy, hhe]
            have hrun : should_apply_learning store msgs call =
                findAlert (PyVal.str hs) (get_relevant_patterns store call) := by
              simp [should_apply_learning, hemp, hglr, hsucc, hhs, hptrue]
            have hfa := findAlert_characterization (PyVal.str hs) hs
              rfl (get_relevant_patterns store call) hsolRel
            rw [hrun]
            constructor
            · rw [hfa.1]
              constructor
              · rintro ⟨q, hq, ss, hss, hcc⟩
                refine ⟨by simpa [List.isEmpty_iff] using hemp,
                  m, es, hs, hlast, hc, hsucc, hhs, hhe, q, hq, ss, hss, hcc⟩
              · rintro ⟨-, m', es', hs', hm', hc'', -, hh', -, q, hq, ss, hss, hcc⟩
                rw [hlast] at hm'
                cases hm'
                rw [hc] at hc''
                cases hc''
                rw [hhs] at hh'
                cases hh'
                exact ⟨q, hq, ss, hss, hcc⟩
            · exact hfa.2
      · -- last result's success flag is truthy: no alert
        have hsucc' : pyTruthy (pyGet es "ok" (pyGet es "success" (PyVal.bool false))) = true := by
          cases h : pyTruthy (pyGet es "ok" (pyGet es "success" (PyVal.bool false)))
          · exact absurd h hsucc
          · rfl
        have hnone : should_apply_learning store msgs call = LearningCheck.noAlert := by
          simp [should_apply_learning, hemp, hglr, hsucc']
        rw [hnone]
        constructor
        · constructor
          · rintro ⟨a, ha⟩
            cases ha
          · rintro ⟨-, m', es', hs', hm', hc'', hsf, -, -, -⟩
            rw [hlast] at hm'
            cases hm'
            rw [hc] at hc''
            cases hc''
            rw [hsucc'] at hsf
            cases hsf
        · intro h
          cases h

/-- C6, evaluated on the spec's scenario: with the learned pattern stored
and the most recent tool message a failure whose hint contains the
pattern's solution, an alert fires (and nothing is raised); with an empty
pattern store the same memory yields no alert. -/
theorem should_apply_learning_alert_iff_witness :
    (∃ a, should_apply_learning [demoPattern] demoMsgs demoCall =
      LearningCheck.alert a) ∧
    should_apply_learning [demoPattern] demoMsgs demoCall ≠
      LearningCheck.raised ∧
    should_apply_learning [] demoMsgs demoCall = LearningCheck.noAlert := by
  have htool : ∀ m ∈ demoMsgs, m.role = "tool" →
      ∃ es, m.content = MsgContent.json (PyVal.dict es) ∧
        (pyGet es "hint" PyVal.none = PyVal.none ∨
          ∃ hs, pyGet es "hint" PyVal.none = PyVal.str hs) := by
    intro m hm hr
    simp only [demoMsgs, List.mem_cons, List.not_mem_nil, or_false] at hm
    rcases hm with rfl | rfl | rfl
    · exact absurd hr (by decide)
    · exact absurd hr (by decide)
    · exact ⟨demoToolEntries, rfl,
        Or.inr ⟨"Did you mean \x27convs\x27?", by rfl⟩⟩
  have hsol : ∀ q ∈ [demoPattern], ∃ ss, q.solution = PyVal.str ss := by
    intro q hq
    simp only [List.mem_singleton] at hq
    subst hq
    exact ⟨"Did you mean \x27convs\x27?", rfl⟩
  have h := should_apply_learning_alert_iff [demoPattern] demoMsgs demoCall
    htool hsol
  have hrel : get_relevant_patterns [demoPattern] demoCall = [demoPattern] := rfl
  refine ⟨h.1.mpr ?_, h.2, rfl⟩
  refine ⟨by rw [hrel]; simp, ⟨"tool",
    MsgContent.json (PyVal.dict demoToolEntries)⟩, demoToolEntries,
    "Did you mean \x27convs\x27?", rfl, rfl, by decide, rfl, by decide,
    demoPattern, by rw [hrel]; exact List.mem_singleton.mpr rfl,
    "Did you mean \x27convs\x27?", rfl, by decide⟩

/-! ## Step equations for the orchestration loop -/

/-- An exhausted script: the loop is still awaiting the provider. -/
lemma solveLoop_nil (single : Bool) (jl : String → Option PyVal)
    (tool : PyDict → PyVal) (st : AgentState) :
    solveLoop single jl tool [] st =
      ([Event.propose st.metrics], Outcome.starved) := rfl

/-- A transport error at the top of an iteration: one terminal `error`
event, immediate return. -/
lemma solveLoop_cons_err (single : Bool) (jl : String → Option PyVal)
    (tool : PyDict → PyVal) (e : String) (rest : List LLMReply)
    (st : AgentState) :
    solveLoop single jl tool (LLMReply.apiError e :: rest) st =
      ([Event.propose st.metrics, Event.error ("vLLM server error: " ++ e)],
        Outcome.error ("vLLM server error: " ++ e)) := rfl

/-- A turn with no marker: the turn is the terminal answer. -/
lemma solveLoop_cons_noCall (single : Bool) (jl : String → Option PyVal)
    (tool : PyDict → PyVal) (content : String) (p c : Nat)
    (rest : List LLMReply) (st : AgentState)
    (hex : extractToolCall jl content = ExtractResult.noCall) :
    solveLoop single jl tool (LLMReply.reply content p c :: rest) st =
      ([Event.propose st.metrics,
        Event.model_response content (stepMetrics st.metrics p c),
        Event.success content (stepMetrics st.metrics p c)],
       Outcome.success content (stepMetrics st.metrics p c)) := by
  simp [solveLoop, hex, stepMetrics]

/-- An unparseable payload: a `failure` event, an injected error tool
message, and another round. -/
lemma solveLoop_cons_badParse (single : Bool) (jl : String → Option PyVal)
    (tool : PyDict → PyVal) (content : String) (p c : Nat)
    (rest : List LLMReply) (st : AgentState)
    (hex : extractToolCall jl content = ExtractResult.badParse) :
    solveLoop single jl tool (LLMReply.reply content p c :: rest) st =
      (Event.propose st.metrics ::
        Event.model_response content (stepMetrics st.metrics p c) ::
        Event.failure (stepMetrics st.metrics p c) ::
        (solveLoop single jl tool rest
          ⟨st.messages ++ [⟨"assistant", MsgContent.text content⟩,
            ⟨"tool", MsgContent.json (PyVal.dict
              [("error", PyVal.str "Invalid tool call format")])⟩],
           stepMetrics st.metrics p c, st.attempt + 1⟩).1,
       (solveLoop single jl tool rest
          ⟨st.messages ++ [⟨"assistant", MsgContent.text content⟩,
            ⟨"tool", MsgContent.json (PyVal.dict
              [("error", PyVal.str "Invalid tool call format")])⟩],
           stepMetrics st.metrics p c, st.attempt + 1⟩).2) := by
  simp [solveLoop, hex, stepMetrics]

/-- A recognized call that fails verification: `execute`/`tool_result`, a
`failure` (multi) or `patch` (single) event, and another round. -/
lemma solveLoop_cons_call_fail (single : Bool) (jl : String → Option PyVal)
    (tool : PyDict → PyVal) (content : String) (p c : Nat)
    (rest : List LLMReply) (st : AgentState) (d : PyDict)
    (hex : extractToolCall jl content = ExtractResult.call d)
    (hv : verify (tool d) = false) :
    solveLoop single jl tool (LLMReply.reply content p c :: rest) st =
      (Event.propose st.metrics ::
        Event.model_response content (stepMetrics st.metrics p c) ::
        Event.execute d (stepMetrics st.metrics p c) ::
        Event.tool_result (tool d) (stepMetrics st.metrics p c) ::
        (if single then Event.patch (stepMetrics st.metrics p c)
          else Event.failure (stepMetrics st.metrics p c)) ::
        (solveLoop single jl tool rest
          ⟨st.messages ++ [⟨"assistant", MsgContent.text content⟩,
            ⟨"tool", MsgContent.json (tool d)⟩],
           stepMetrics st.metrics p c, st.attempt + 1⟩).1,
       (solveLoop single jl tool rest
          ⟨st.messages ++ [⟨"assistant", MsgContent.text content⟩,
            ⟨"tool", MsgContent.json (tool d)⟩],
           stepMetrics st.metrics p c, st.attempt + 1⟩).2) := by
  simp [solveLoop, hex, hv, stepMetrics]

/-- A recognized call that passes verification, with a reply available for
the final-answer round: terminal success; the multi-pass loop yields an
extra `propose`, and the final call's tokens are added without bumping
`llm_calls`. -/
lemma solveLoop_cons_call_ok (single : Bool) (jl : String → Option PyVal)
    (tool : PyDict → PyVal) (content : String) (p c : Nat) (f : String)
    (fp fc : Nat) (rest : List LLMReply) (st : AgentState) (d : PyDict)
    (hex : extractToolCall jl content = ExtractResult.call d)
    (hv : verify (tool d) = true) :
    solveLoop single jl tool
        (LLMReply.reply content p c :: LLMReply.reply f fp fc :: rest) st =
      ([Event.propose st.metrics,
        Event.model_response content (stepMetrics st.metrics p c),
        Event.execute d (stepMetrics st.metrics p c),
        Event.tool_result (tool d) (stepMetrics st.metrics p c)] ++
        (if single then [] else [Event.propose (stepMetrics st.metrics p c)]) ++
        [Event.success f (finalMetrics (stepMetrics st.metrics p c) fp fc)],
       Outcome.success f (finalMetrics (stepMetrics st.metrics p c) fp fc)) := by
  simp [solveLoop, hex, hv, stepMetrics, finalMetrics]

/-- A payload parsing to a non-dict: the uncaught `AttributeError` escapes
after the `model_response` event. -/
lemma solveLoop_cons_crashed (single : Bool) (jl : String → Option PyVal)
    (tool : PyDict → PyVal) (content : String) (p c : Nat)
    (rest : List LLMReply) (st : AgentState)
    (hex : extractToolCall jl content = ExtractResult.crashed) :
    solveLoop single jl tool (LLMReply.reply content p c :: rest) st =
      ([Event.propose st.metrics,
        Event.model_response content (stepMetrics st.metrics p c)],
       Outcome.crashed) := by
  simp [solveLoop, hex, stepMetrics]

/-- A verified call with no script left for the final-answer round: the run
is still awaiting the provider. -/
lemma solveLoop_cons_call_ok_starved (single : Bool)
    (jl : String → Option PyVal) (tool : PyDict → PyVal) (content : String)
    (p c : Nat) (st : AgentState) (d : PyDict)
    (hex : extractToolCall jl content = ExtractResult.call d)
    (hv : verify (tool d) = true) :
    solveLoop single jl tool [LLMReply.reply content p c] st =
      ([Event.propose st.metrics,
        Event.model_response content (stepMetrics st.metrics p c),
        Event.execute d (stepMetrics st.metrics p c),
        Event.tool_result (tool d) (stepMetrics st.metrics p c)] ++
        (if single then [] else [Event.propose (stepMetrics st.metrics p c)]),
       Outcome.starved) := by
  simp [solveLoop, hex, hv, stepMetrics]

/-- A verified call whose final-answer invocation hits an `APIError`: the
exception is uncaught there (only `JSONDecodeError`/`KeyError` are guarded),
so the generator dies with no terminal event. -/
lemma solveLoop_cons_call_ok_err (single : Bool) (jl : String → Option PyVal)
    (tool : PyDict → PyVal) (content : String) (p c : Nat) (e : String)
    (rest : List LLMReply) (st : AgentState) (d : PyDict)
    (hex : extractToolCall jl content = ExtractResult.call d)
    (hv : verify (tool d) = true) :
    solveLoop single jl tool
        (LLMReply.reply content p c :: LLMReply.apiError e :: rest) st =
      ([Event.propose st.metrics,
        Event.model_response content (stepMetrics st.metrics p c),
        Event.execute d (stepMetrics st.metrics p c),
        Event.tool_result (tool d) (stepMetrics st.metrics p c)] ++
        (if single then [] else [Event.propose (stepMetrics st.metrics p c)]),
       Outcome.crashed) := by
  simp [solveLoop, hex, hv, stepMetrics]

/-! ## C7 — single-pass counts one top-level invocation -/

/-- Claim C7: In the continued-context (single-pass) strategy, when the first
tool call passes verification the run terminates successfully with
`llm_calls = 1` in the terminal event's metrics — the second, continuation
request that produces the final answer adds its tokens but is not counted —
and exactly one `propose` transition occurs. -/
theorem single_pass_success_one_llm_call (jl : String → Option PyVal)
    (tool : PyDict → PyVal) (sig prompt content : String) (p c : Nat)
    (f : String) (fp fc : Nat) (rest : List LLMReply) (d : PyDict)
    (hex : extractToolCall jl content = ExtractResult.call d)
    (hv : verify (tool d) = true) :
    (solve_single_pass jl tool sig prompt
        (LLMReply.reply content p c :: LLMReply.reply f fp fc :: rest)).2 =
      Outcome.success f ⟨p + fp, c + fc, 1⟩ ∧
    countPropose (solve_single_pass jl tool sig prompt
        (LLMReply.reply content p c :: LLMReply.reply f fp fc :: rest)).1 = 1 ∧
    countSuccess (solve_single_pass jl tool sig prompt
        (LLMReply.reply content p c :: LLMReply.reply f fp fc :: rest)).1 = 1 := by
  have h := solveLoop_cons_call_ok true jl tool content p c f fp fc rest
    ⟨[⟨"system", MsgContent.text SYSTEM_PROMPT_SINGLE_PASS⟩,
      ⟨"user", MsgContent.text ("TOOL_SIGNATURE: " ++ sig
        ++ "\n\nUser Prompt: " ++ prompt)⟩], Metrics.zero, 0⟩ d hex hv
  constructor
  · rw [solve_single_pass, h]
    simp [finalMetrics, stepMetrics, Metrics.zero]
  · constructor <;>
    · rw [solve_single_pass, h]
      simp [countPropose, countSuccess, List.countP_cons, List.countP_append,
        Event.isPropose, Event.isSuccess]

/-- C7, evaluated on the demo scenario: a successful `sql_query` call then a
continuation answer; the terminal success reports exactly one llm call. -/
theorem single_pass_success_one_llm_call_witness :
    (solve_single_pass jsonLoadsFix toolOk "sig" demoPrompt
        [LLMReply.reply turnCall 10 5, LLMReply.reply "The answer is 12345." 7 3]).2 =
      Outcome.success "The answer is 12345." ⟨17, 8, 1⟩ ∧
    countPropose (solve_single_pass jsonLoadsFix toolOk "sig" demoPrompt
        [LLMReply.reply turnCall 10 5, LLMReply.reply "The answer is 12345." 7 3]).1 = 1 := by
  have h := single_pass_success_one_llm_call jsonLoadsFix toolOk "sig" demoPrompt
    turnCall 10 5 "The answer is 12345." 7 3 [] stdCall (by rfl) (by rfl)
  exact ⟨h.1, h.2.1⟩

/-! ## C9 — transport errors are terminal -/

/-- Event counts across the five events of a verification-failure round. -/
lemma counts_prefix_fail (single : Bool) (m0 m1 : Metrics) (content : String)
    (d : PyDict) (res : PyVal) (E : List Event) :
    countError (Event.propose m0 :: Event.model_response content m1 ::
      Event.execute d m1 :: Event.tool_result res m1 ::
      (if single then Event.patch m1 else Event.failure m1) :: E) = countError E ∧
    countSuccess (Event.propose m0 :: Event.model_response content m1 ::
      Event.execute d m1 :: Event.tool_result res m1 ::
      (if single then Event.patch m1 else Event.failure m1) :: E) = countSuccess E ∧
    countPropose (Event.propose m0 :: Event.model_response content m1 ::
      Event.execute d m1 :: Event.tool_result res m1 ::
      (if single then Event.patch m1 else Event.failure m1) :: E) =
      countPropose E + 1 ∧
    countVerifyFailures (Event.propose m0 :: Event.model_response content m1 ::
      Event.execute d m1 :: Event.tool_result res m1 ::
      (if single then Event.patch m1 else Event.failure m1) :: E) =
      (if verify res then 0 else 1) + countVerifyFailures E := by
  cases single <;> cases hv : verify res <;>
    simp [countError, countSuccess, countPropose, countVerifyFailures,
      List.countP_cons, Event.isError, Event.isSuccess, Event.isPropose,
      Event.isVerifyFailure, hv] <;> omega

/-- Event counts across the three events of a parse-failure round. -/
lemma counts_prefix_badParse (m0 m1 : Metrics) (content : String)
    (E : List Event) :
    countError (Event.propose m0 :: Event.model_response content m1 ::
      Event.failure m1 :: E) = countError E ∧
    countSuccess (Event.propose m0 :: Event.model_response content m1 ::
      Event.failure m1 :: E) = countSuccess E ∧
    countPropose (Event.propose m0 :: Event.model_response content m1 ::
      Event.failure m1 :: E) = countPropose E + 1 ∧
    countVerifyFailures (Event.propose m0 :: Event.model_response content m1 ::
      Event.failure m1 :: E) = countVerifyFailures E := by
  simp [countError, countSuccess, countPropose, countVerifyFailures,
    List.countP_cons, Event.isError, Event.isSuccess, Event.isPropose,
    Event.isVerifyFailure]

/-- After any number of loop-continuing rounds, a provider error at the next
top-of-loop invocation yields exactly one `error` event, as the last event,
with no `success` event, and the loop consumes nothing further (one
`propose` per reply issued, none after the failing one). -/
lemma loop_transport_error (single : Bool) (jl : String → Option PyVal)
    (tool : PyDict → PyVal) :
    ∀ (pre : List LLMReply) (e : String) (post : List LLMReply)
      (st : AgentState),
      (∀ r ∈ pre, keepsLooping jl tool r) →
      (solveLoop single jl tool (pre ++ LLMReply.apiError e :: post) st).2 =
        Outcome.error ("vLLM server error: " ++ e) ∧
      countError (solveLoop single jl tool (pre ++ LLMReply.apiError e :: post) st).1 = 1 ∧
      countSuccess (solveLoop single jl tool (pre ++ LLMReply.apiError e :: post) st).1 = 0 ∧
      (solveLoop single jl tool (pre ++ LLMReply.apiError e :: post) st).1.getLast? =
        Option.some (Event.error ("vLLM server error: " ++ e)) ∧
      countPropose (solveLoop single jl tool (pre ++ LLMReply.apiError e :: post) st).1 =
        pre.length + 1 := by
  intro pre
  induction pre with
  | nil =>
      intro e post st _
      rw [List.nil_append, solveLoop_cons_err]
      refine ⟨rfl, ?_, ?_, rfl, ?_⟩ <;>
        simp [countError, countSuccess, countPropose, List.countP_cons,
          Event.isError, Event.isSuccess, Event.isPropose]
  | cons r pres ih =>
      intro e post st hpre
      obtain ⟨s, p, c, rfl, hbranch⟩ := hpre r (List.mem_cons_self r pres)
      have hpre' : ∀ r ∈ pres, keepsLooping jl tool r :=
        fun r hr => hpre r (List.mem_cons_of_mem _ hr)
      rcases hbranch with hex | ⟨d, hex, hv⟩
      · -- the round ends in a parse failure
        rw [List.cons_append, solveLoop_cons_badParse single jl tool s p c _ _ hex]
        obtain ⟨iho, ihe, ihs, ihl, ihp⟩ := ih e post
          ⟨st.messages ++ [⟨"assistant", MsgContent.text s⟩,
            ⟨"tool", MsgContent.json (PyVal.dict
              [("error", PyVal.str "Invalid tool call format")])⟩],
           stepMetrics st.metrics p c, st.attempt + 1⟩ hpre'
        have hne : (solveLoop single jl tool (pres ++ LLMReply.apiError e :: post)
            ⟨st.messages ++ [⟨"assistant", MsgContent.text s⟩,
              ⟨"tool", MsgContent.json (PyVal.dict
                [("error", PyVal.str "Invalid tool call format")])⟩],
             stepMetrics st.metrics p c, st.attempt + 1⟩).1 ≠ [] := by
          intro hE
          rw [hE] at ihl
          simp at ihl
        obtain ⟨hce, hcs, hcp, -⟩ := counts_prefix_badParse st.metrics
          (stepMetrics st.metrics p c) s
          (solveLoop single jl tool (pres ++ LLMReply.apiError e :: post)
            ⟨st.messages ++ [⟨"assistant", MsgContent.text s⟩,
              ⟨"tool", MsgContent.json (PyVal.dict
                [("error", PyVal.str "Invalid tool call format")])⟩],
             stepMetrics st.metrics p c, st.attempt + 1⟩).1
        refine ⟨iho, ?_, ?_, ?_, ?_⟩
        · rw [hce, ihe]
        · rw [hcs, ihs]
        · have happ := List.getLast?_append_of_ne_nil
            [Event.propose st.metrics,
              Event.model_response s (stepMetrics st.metrics p c),
              Event.failure (stepMetrics st.metrics p c)] hne
          simp only [List.cons_append, List.nil_append] at happ
          rw [happ, ihl]
        · rw [hcp, ihp]
          simp
      · -- the round ends in a verification failure
        rw [List.cons_append, solveLoop_cons_call_fail single jl tool s p c _ _ d hex hv]
        obtain ⟨iho, ihe, ihs, ihl, ihp⟩ := ih e post
          ⟨st.messages ++ [⟨"assistant", MsgContent.text s⟩,
            ⟨"tool", MsgContent.json (tool d)⟩],
           stepMetrics st.metrics p c, st.attempt + 1⟩ hpre'
        have hne : (solveLoop single jl tool (pres ++ LLMReply.apiError e :: post)
            ⟨st.messages ++ [⟨"assistant", MsgContent.text s⟩,
              ⟨"tool", MsgContent.json (tool d)⟩],
             stepMetrics st.metrics p c, st.attempt + 1⟩).1 ≠ [] := by
          intro hE
          rw [hE] at ihl
          simp at ihl
        obtain ⟨hce, hcs, hcp, -⟩ := counts_prefix_fail single st.metrics
          (stepMetrics st.metrics p c) s d (tool d)
          (solveLoop single jl tool (pres ++ LLMReply.apiError e :: post)
            ⟨st.messages ++ [⟨"assistant", MsgContent.text s⟩,
              ⟨"tool", MsgContent.json (tool d)⟩],
             stepMetrics st.metrics p c, st.attempt + 1⟩).1
        refine ⟨iho, ?_, ?_, ?_, ?_⟩
        · rw [hce, ihe]
        · rw [hcs, ihs]
        · have happ := List.getLast?_append_of_ne_nil
            [Event.propose st.metrics,
              Event.model_response s (stepMetrics st.metrics p c),
              Event.execute d (stepMetrics st.metrics p c),
              Event.tool_result (tool d) (stepMetrics st.metrics p c),
              (if single then Event.patch (stepMetrics st.metrics p c)
                else Event.failure (stepMetrics st.metrics p c))] hne
          simp only [List.cons_append, List.nil_append] at happ
          rw [happ, ihl]
        · rw [hcp, ihp]
          simp

/-- After any number of loop-continuing rounds, a reply whose call passes
verification followed by an `APIError` at the final-answer invocation kills
the generator: the `APIError` is raised inside the `try` guarded only by
`(json.JSONDecodeError, KeyError)`, so the run ends `crashed` with *no*
terminal event — no `error` event and no `success` event — even though the
multi-pass loop has already announced the final round with its extra
`propose`. -/
lemma loop_final_round_crash (single : Bool) (jl : String → Option PyVal)
    (tool : PyDict → PyVal) :
    ∀ (pre : List LLMReply) (content : String) (p c : Nat) (e : String)
      (rest : List LLMReply) (st : AgentState) (d : PyDict),
      (∀ r ∈ pre, keepsLooping jl tool r) →
      extractToolCall jl content = ExtractResult.call d →
      verify (tool d) = true →
      (solveLoop single jl tool
          (pre ++ LLMReply.reply content p c :: LLMReply.apiError e :: rest) st).2 =
        Outcome.crashed ∧
      countError (solveLoop single jl tool
          (pre ++ LLMReply.reply content p c :: LLMReply.apiError e :: rest) st).1 = 0 ∧
      countSuccess (solveLoop single jl tool
          (pre ++ LLMReply.reply content p c :: LLMReply.apiError e :: rest) st).1 = 0 ∧
      countPropose (solveLoop single jl tool
          (pre ++ LLMReply.reply content p c :: LLMReply.apiError e :: rest) st).1 =
        pre.length + (if single then 1 else 2) := by
  intro pre
  induction pre with
  | nil =>
      intro content p c e rest st d _ hex hv
      rw [List.nil_append,
        solveLoop_cons_call_ok_err single jl tool content p c e rest st d hex hv]
      refine ⟨rfl, ?_, ?_, ?_⟩ <;>
        cases single <;>
          simp [countError, countSuccess, countPropose, List.countP_append,
            List.countP_cons, Event.isError, Event.isSuccess, Event.isPropose]
  | cons r pres ih =>
      intro content p c e rest st d hpre hex hv
      obtain ⟨s, ps, cs, rfl, hbranch⟩ := hpre r (List.mem_cons_self r pres)
      have hpre' : ∀ r ∈ pres, keepsLooping jl tool r :=
        fun r hr => hpre r (List.mem_cons_of_mem _ hr)
      rcases hbranch with hexb | ⟨d2, hexb, hvb⟩
      · -- the round ends in a parse failure
        rw [List.cons_append,
          solveLoop_cons_badParse single jl tool s ps cs _ _ hexb]
        obtain ⟨iho, ihe, ihs, ihp⟩ := ih content p c e rest
          ⟨st.messages ++ [⟨"assistant", MsgContent.text s⟩,
            ⟨"tool", MsgContent.json (PyVal.dict
              [("error", PyVal.str "Invalid tool call format")])⟩],
           stepMetrics st.metrics ps cs, st.attempt + 1⟩ d hpre' hex hv
        obtain ⟨hce, hcs, hcp, -⟩ := counts_prefix_badParse st.metrics
          (stepMetrics st.metrics ps cs) s
          (solveLoop single jl tool
            (pres ++ LLMReply.reply content p c :: LLMReply.apiError e :: rest)
            ⟨st.messages ++ [⟨"assistant", MsgContent.text s⟩,
              ⟨"tool", MsgContent.json (PyVal.dict
                [("error", PyVal.str "Invalid tool call format")])⟩],
             stepMetrics st.metrics ps cs, st.attempt + 1⟩).1
        refine ⟨iho, ?_, ?_, ?_⟩
        · rw [hce, ihe]
        · rw [hcs, ihs]
        · rw [hcp, ihp]
          simp only [List.length_cons]
          omega
      · -- the round ends in a verification failure
        rw [List.cons_append,
          solveLoop_cons_call_fail single jl tool s ps cs _ _ d2 hexb hvb]
        obtain ⟨iho, ihe, ihs, ihp⟩ := ih content p c e rest
          ⟨st.messages ++ [⟨"assistant", MsgContent.text s⟩,
            ⟨"tool", MsgContent.json (tool d2)⟩],
           stepMetrics st.metrics ps cs, st.attempt + 1⟩ d hpre' hex hv
        obtain ⟨hce, hcs, hcp, -⟩ := counts_prefix_fail single st.metrics
          (stepMetrics st.metrics ps cs) s d2 (tool d2)
          (solveLoop single jl tool
            (pres ++ LLMReply.reply content p c :: LLMReply.apiError e :: rest)
            ⟨st.messages ++ [⟨"assistant", MsgContent.text s⟩,
              ⟨"tool", MsgContent.json (tool d2)⟩],
             stepMetrics st.metrics ps cs, st.attempt + 1⟩).1
        refine ⟨iho, ?_, ?_, ?_⟩
        · rw [hce, ihe]
        · rw [hcs, ihs]
        · rw [hcp, ihp]
          simp only [List.length_cons]
          omega

/-- Claim C9, counterexample to the claim as stated: a session whose first
tool call passes verification and whose *next* provider invocation — the
final-answer round, in multi-pass even announced by its own `propose`
event — fails with a transport error.  The `APIError` is uncaught there
(src/app/agent.py guards that `try` only with `JSONDecodeError`/`KeyError`),
so the generator dies with *zero* `error` events and no terminal event at
all, in both strategies — not the "exactly one terminal ERROR event" the
claim requires of every failing provider invocation. -/
theorem transport_error_final_round_cex :
    (solve_multi_pass jsonLoadsFix toolSql demoPrompt
        [LLMReply.reply turnCall 10 5, LLMReply.apiError "boom"]).2 =
      Outcome.crashed ∧
    countError (solve_multi_pass jsonLoadsFix toolSql demoPrompt
        [LLMReply.reply turnCall 10 5, LLMReply.apiError "boom"]).1 = 0 ∧
    countSuccess (solve_multi_pass jsonLoadsFix toolSql demoPrompt
        [LLMReply.reply turnCall 10 5, LLMReply.apiError "boom"]).1 = 0 ∧
    countPropose (solve_multi_pass jsonLoadsFix toolSql demoPrompt
        [LLMReply.reply turnCall 10 5, LLMReply.apiError "boom"]).1 = 2 ∧
    (solve_single_pass jsonLoadsFix toolSql "sig" demoPrompt
        [LLMReply.reply turnCall 10 5, LLMReply.apiError "boom"]).2 =
      Outcome.crashed ∧
    countError (solve_single_pass jsonLoadsFix toolSql "sig" demoPrompt
        [LLMReply.reply turnCall 10 5, LLMReply.apiError "boom"]).1 = 0 :=
  ⟨rfl, rfl, rfl, rfl, rfl, rfl⟩

/-- Claim C9, amended: in either strategy, a transport error at a
*top-of-loop* provider invocation (after any number of loop-continuing
rounds) makes the session emit exactly one terminal `error` event — the
trace's last event — with no `success` event ever and no internal retry:
one `propose` per reply issued, none after the failing request, the rest of
the script never consumed.  But a transport error at the *final-answer*
invocation, issued after a successful verification, is not caught (only
`JSONDecodeError`/`KeyError` are guarded there): the generator terminates
with no terminal event at all — no ERROR and no SUCCESS — in multi-pass
even after announcing the round with its extra `propose`. -/
theorem transport_error_outcomes (jl : String → Option PyVal)
    (tool : PyDict → PyVal) (prompt sig : String) (pre : List LLMReply)
    (e : String) (post : List LLMReply)
    (hpre : ∀ r ∈ pre, keepsLooping jl tool r) :
    ((solve_multi_pass jl tool prompt (pre ++ LLMReply.apiError e :: post)).2 =
        Outcome.error ("vLLM server error: " ++ e) ∧
      countError (solve_multi_pass jl tool prompt (pre ++ LLMReply.apiError e :: post)).1 = 1 ∧
      countSuccess (solve_multi_pass jl tool prompt (pre ++ LLMReply.apiError e :: post)).1 = 0 ∧
      (solve_multi_pass jl tool prompt (pre ++ LLMReply.apiError e :: post)).1.getLast? =
        Option.some (Event.error ("vLLM server error: " ++ e)) ∧
      countPropose (solve_multi_pass jl tool prompt (pre ++ LLMReply.apiError e :: post)).1 =
        pre.length + 1) ∧
    ((solve_single_pass jl tool sig prompt (pre ++ LLMReply.apiError e :: post)).2 =
        Outcome.error ("vLLM server error: " ++ e) ∧
      countError (solve_single_pass jl tool sig prompt (pre ++ LLMReply.apiError e :: post)).1 = 1 ∧
      countSuccess (solve_single_pass jl tool sig prompt (pre ++ LLMReply.apiError e :: post)).1 = 0 ∧
      (solve_single_pass jl tool sig prompt (pre ++ LLMReply.apiError e :: post)).1.getLast? =
        Option.some (Event.error ("vLLM server error: " ++ e)) ∧
      countPropose (solve_single_pass jl tool sig prompt (pre ++ LLMReply.apiError e :: post)).1 =
        pre.length + 1) ∧
    (∀ (content : String) (p c : Nat) (rest : List LLMReply) (d : PyDict),
      extractToolCall jl content = ExtractResult.call d →
      verify (tool d) = true →
      (solve_multi_pass jl tool prompt
          (pre ++ LLMReply.reply content p c :: LLMReply.apiError e :: rest)).2 =
        Outcome.crashed ∧
      countError (solve_multi_pass jl tool prompt
          (pre ++ LLMReply.reply content p c :: LLMReply.apiError e :: rest)).1 = 0 ∧
      countSuccess (solve_multi_pass jl tool prompt
          (pre ++ LLMReply.reply content p c :: LLMReply.apiError e :: rest)).1 = 0 ∧
      countPropose (solve_multi_pass jl tool prompt
          (pre ++ LLMReply.reply content p c :: LLMReply.apiError e :: rest)).1 =
        pre.length + 2 ∧
      (solve_single_pass jl tool sig prompt
          (pre ++ LLMReply.reply content p c :: LLMReply.apiError e :: rest)).2 =
        Outcome.crashed ∧
      countError (solve_single_pass jl tool sig prompt
          (pre ++ LLMReply.reply content p c :: LLMReply.apiError e :: rest)).1 = 0 ∧
      countSuccess (solve_single_pass jl tool sig prompt
          (pre ++ LLMReply.reply content p c :: LLMReply.apiError e :: rest)).1 = 0 ∧
      countPropose (solve_single_pass jl tool sig prompt
          (pre ++ LLMReply.reply content p c :: LLMReply.apiError e :: rest)).1 =
        pre.length + 1) := by
  refine ⟨loop_transport_error false jl tool pre e post _ hpre,
    loop_transport_error true jl tool pre e post _ hpre, ?_⟩
  intro content p c rest d hex hv
  obtain ⟨mo, me, ms, mp⟩ :=
    loop_final_round_crash false jl tool pre content p c e rest _ d hpre hex hv
  obtain ⟨so, se, ss, sp⟩ :=
    loop_final_round_crash true jl tool pre content p c e rest _ d hpre hex hv
  exact ⟨mo, me, ms, by simpa using mp, so, se, ss, by simpa using sp⟩

/-- C9 (amended), evaluated: after one failed round, a transport error at
the next top-of-loop invocation yields exactly one terminal `error` event
and stops (script untouched); while the same prefix followed by a verified
call whose final-answer invocation errors leaves both strategies dead with
zero `error` events — multi-pass after its third `propose`, single-pass
after its second. -/
theorem transport_error_outcomes_witness :
    (solve_multi_pass jsonLoadsFix toolSql demoPrompt
        [LLMReply.reply turnBad 10 5, LLMReply.apiError "boom",
          LLMReply.reply "never reached" 1 1]).2 =
      Outcome.error ("vLLM server error: " ++ "boom") ∧
    countError (solve_multi_pass jsonLoadsFix toolSql demoPrompt
        [LLMReply.reply turnBad 10 5, LLMReply.apiError "boom",
          LLMReply.reply "never reached" 1 1]).1 = 1 ∧
    countPropose (solve_multi_pass jsonLoadsFix toolSql demoPrompt
        [LLMReply.reply turnBad 10 5, LLMReply.apiError "boom",
          LLMReply.reply "never reached" 1 1]).1 = 2 ∧
    countError (solve_single_pass jsonLoadsFix toolSql "sig" demoPrompt
        [LLMReply.reply turnBad 10 5, LLMReply.apiError "boom",
          LLMReply.reply "never reached" 1 1]).1 = 1 ∧
    (solve_multi_pass jsonLoadsFix toolSql demoPrompt
        [LLMReply.reply turnBad 10 5, LLMReply.reply turnCall 9 4,
          LLMReply.apiError "boom"]).2 = Outcome.crashed ∧
    countError (solve_multi_pass jsonLoadsFix toolSql demoPrompt
        [LLMReply.reply turnBad 10 5, LLMReply.reply turnCall 9 4,
          LLMReply.apiError "boom"]).1 = 0 ∧
    countPropose (solve_multi_pass jsonLoadsFix toolSql demoPrompt
        [LLMReply.reply turnBad 10 5, LLMReply.reply turnCall 9 4,
          LLMReply.apiError "boom"]).1 = 3 ∧
    (solve_single_pass jsonLoadsFix toolSql "sig" demoPrompt
        [LLMReply.reply turnBad 10 5, LLMReply.reply turnCall 9 4,
          LLMReply.apiError "boom"]).2 = Outcome.crashed ∧
    countPropose (solve_single_pass jsonLoadsFix toolSql "sig" demoPrompt
        [LLMReply.reply turnBad 10 5, LLMReply.reply turnCall 9 4,
          LLMReply.apiError "boom"]).1 = 2 := by
  have h := transport_error_outcomes jsonLoadsFix toolSql demoPrompt "sig"
    [LLMReply.reply turnBad 10 5] "boom" [LLMReply.reply "never reached" 1 1]
    (by
      intro r hr
      simp only [List.mem_singleton] at hr
      subst hr
      exact ⟨turnBad, 10, 5, rfl, Or.inr ⟨stdCallBad, by rfl, by rfl⟩⟩)
  have h3 := h.2.2 turnCall 9 4 [] stdCall (by rfl) (by rfl)
  exact ⟨h.1.1, h.1.2.1, h.1.2.2.2.2, h.2.1.2.1,
    h3.1, h3.2.1, h3.2.2.2.1, h3.2.2.2.2.1, h3.2.2.2.2.2.2.2⟩

/-! ## C1 — the multi-pass llm-calls accounting -/

/-- The accounting invariant of the multi-pass loop: a successful run's
terminal `llm_calls` equals the starting count plus the number of `propose`
transitions when the final turn itself was the answer, and plus one fewer
when success came through a verified tool call (the final-answer round
yields a `propose` event but its provider call is deliberately not counted);
moreover `llm_calls` grows by at least two beyond the start whenever a
verification failure occurred. -/
lemma multi_success_llm_calls (jl : String → Option PyVal)
    (tool : PyDict → PyVal) :
    ∀ (script : List LLMReply) (st : AgentState) (ans : String) (m : Metrics),
      (solveLoop false jl tool script st).2 = Outcome.success ans m →
      ((m.llm_calls = st.metrics.llm_calls +
          countPropose (solveLoop false jl tool script st).1 ∨
        (m.llm_calls + 1 = st.metrics.llm_calls +
            countPropose (solveLoop false jl tool script st).1 ∧
          2 ≤ countPropose (solveLoop false jl tool script st).1)) ∧
       (1 ≤ countVerifyFailures (solveLoop false jl tool script st).1 →
          st.metrics.llm_calls + 2 ≤ m.llm_calls) ∧
       1 ≤ countPropose (solveLoop false jl tool script st).1) := by
  intro script
  induction script with
  | nil =>
      intro st ans m h
      rw [solveLoop_nil] at h
      simp at h
  | cons r rest ih =>
      intro st ans m h
      cases r with
      | apiError e =>
          rw [solveLoop_cons_err] at h
          simp at h
      | reply content p c =>
          cases hex : extractToolCall jl content with
          | noCall =>
              have hfst := congrArg Prod.fst
                (solveLoop_cons_noCall false jl tool content p c rest st hex)
              have hsnd := congrArg Prod.snd
                (solveLoop_cons_noCall false jl tool content p c rest st hex)
              rw [hsnd] at h
              simp only [Outcome.success.injEq] at h
              obtain ⟨-, h2⟩ := h
              subst h2
              rw [hfst]
              refine ⟨Or.inl ?_, fun hvf => ?_, ?_⟩
              · simp [countPropose, List.countP_cons, Event.isPropose, stepMetrics]
              · simp [countVerifyFailures, List.countP_cons,
                  Event.isVerifyFailure] at hvf
              · simp [countPropose, List.countP_cons, Event.isPropose]
          | badParse =>
              have hfst := congrArg Prod.fst
                (solveLoop_cons_badParse false jl tool content p c rest st hex)
              have hsnd := congrArg Prod.snd
                (solveLoop_cons_badParse false jl tool content p c rest st hex)
              rw [hsnd] at h
              obtain ⟨ih1, ih2, ih3⟩ :=
                ih ⟨st.messages ++ [⟨"assistant", MsgContent.text content⟩,
                  ⟨"tool", MsgContent.json (PyVal.dict
                    [("error", PyVal.str "Invalid tool call format")])⟩],
                  stepMetrics st.metrics p c, st.attempt + 1⟩ ans m h
              rw [hfst]
              obtain ⟨-, -, hcp, hcv⟩ := counts_prefix_badParse st.metrics
                (stepMetrics st.metrics p c) content
                (solveLoop false jl tool rest
                  ⟨st.messages ++ [⟨"assistant", MsgContent.text content⟩,
                    ⟨"tool", MsgContent.json (PyVal.dict
                      [("error", PyVal.str "Invalid tool call format")])⟩],
                    stepMetrics st.metrics p c, st.attempt + 1⟩).1
              rw [hcp, hcv]
              have hml : (stepMetrics st.metrics p c).llm_calls =
                  st.metrics.llm_calls + 1 := rfl
              dsimp only at ih1 ih2
              rw [hml] at ih1 ih2
              refine ⟨?_, fun hvf => ?_, by omega⟩
              · rcases ih1 with h1 | ⟨h1, h2⟩
                · exact Or.inl (by omega)
                · exact Or.inr ⟨by omega, by omega⟩
              · have := ih2 hvf
                omega
          | crashed =>
              have hsnd := congrArg Prod.snd
                (solveLoop_cons_crashed false jl tool content p c rest st hex)
              rw [hsnd] at h
              simp at h
          | call d =>
              cases hv : verify (tool d) with
              | false =>
                  have hfst := congrArg Prod.fst
                    (solveLoop_cons_call_fail false jl tool content p c rest st d hex hv)
                  have hsnd := congrArg Prod.snd
                    (solveLoop_cons_call_fail false jl tool content p c rest st d hex hv)
                  rw [hsnd] at h
                  obtain ⟨ih1, ih2, ih3⟩ :=
                    ih ⟨st.messages ++ [⟨"assistant", MsgContent.text content⟩,
                      ⟨"tool", MsgContent.json (tool d)⟩],
                      stepMetrics st.metrics p c, st.attempt + 1⟩ ans m h
                  rw [hfst]
                  obtain ⟨-, -, hcp, hcv⟩ := counts_prefix_fail false st.metrics
                    (stepMetrics st.metrics p c) content d (tool d)
                    (solveLoop false jl tool rest
                      ⟨st.messages ++ [⟨"assistant", MsgContent.text content⟩,
                        ⟨"tool", MsgContent.json (tool d)⟩],
                        stepMetrics st.metrics p c, st.attempt + 1⟩).1
                  rw [hcp, hcv, hv]
                  have hml : (stepMetrics st.metrics p c).llm_calls =
                      st.metrics.llm_calls + 1 := rfl
                  dsimp only at ih1 ih2
                  rw [hml] at ih1 ih2
                  refine ⟨?_, fun _ => ?_, by omega⟩
                  · rcases ih1 with h1 | ⟨h1, h2⟩
                    · exact Or.inl (by omega)
                    · exact Or.inr ⟨by omega, by omega⟩
                  · rcases ih1 with h1 | ⟨h1, h2⟩ <;> omega
              | true =>
                  cases rest with
                  | nil =>
                      have hsnd := congrArg Prod.snd
                        (solveLoop_cons_call_ok_starved false jl tool content p c st d hex hv)
                      rw [hsnd] at h
                      simp at h
                  | cons r2 rest2 =>
                      cases r2 with
                      | apiError e2 =>
                          have hsnd := congrArg Prod.snd
                            (solveLoop_cons_call_ok_err false jl tool content p c e2 rest2 st d hex hv)
                          rw [hsnd] at h
                          simp at h
                      | reply f fp fc =>
                          have hfst := congrArg Prod.fst
                            (solveLoop_cons_call_ok false jl tool content p c f fp fc rest2 st d hex hv)
                          have hsnd := congrArg Prod.snd
                            (solveLoop_cons_call_ok false jl tool content p c f fp fc rest2 st d hex hv)
                          rw [hsnd] at h
                          simp only [Outcome.success.injEq] at h
                          obtain ⟨-, h2⟩ := h
                          subst h2
                          rw [hfst]
                          refine ⟨Or.inr ⟨?_, ?_⟩, fun hvf => ?_, ?_⟩
                          · simp [countPropose, List.countP_cons, List.countP_append,
                              Event.isPropose, stepMetrics, finalMetrics]
                          · simp [countPropose, List.countP_cons, List.countP_append,
                              Event.isPropose]
                          · simp [countVerifyFailures, List.countP_cons,
                              List.countP_append, Event.isVerifyFailure, hv] at hvf
                          · simp [countPropose, List.countP_cons, List.countP_append,
                              Event.isPropose]

/-- Claim C1, amended: In every successful multi-pass run, the `llm_calls`
recorded in the terminal event's metrics equals the number of `propose`
transitions when the final model turn itself was the answer, and equals that
number *minus one* when success came through a verified tool call: the extra
final-answer round yields a `propose` event but its provider call is
deliberately not counted as a new llm call (the source says so in a
comment).  The second half of the claim stands: whenever at least one
verification failure occurred, the recorded count is strictly greater
than 1. -/
theorem multi_pass_llm_calls_propose_relation (jl : String → Option PyVal)
    (tool : PyDict → PyVal) (prompt : String) (script : List LLMReply)
    (ans : String) (m : Metrics)
    (h : (solve_multi_pass jl tool prompt script).2 = Outcome.success ans m) :
    (m.llm_calls = countPropose (solve_multi_pass jl tool prompt script).1 ∨
      (m.llm_calls + 1 = countPropose (solve_multi_pass jl tool prompt script).1 ∧
        2 ≤ countPropose (solve_multi_pass jl tool prompt script).1)) ∧
    (1 ≤ countVerifyFailures (solve_multi_pass jl tool prompt script).1 →
      2 ≤ m.llm_calls) := by
  simp only [solve_multi_pass] at h ⊢
  obtain ⟨h1, h2, h3⟩ := multi_success_llm_calls jl tool script _ ans m h
  dsimp only at h1 h2
  have hz : Metrics.zero.llm_calls = 0 := rfl
  rw [hz] at h1 h2
  constructor
  · rcases h1 with h1 | ⟨h1, h2'⟩
    · exact Or.inl (by omega)
    · exact Or.inr ⟨by omega, h2'⟩
  · intro hvf
    have := h2 hvf
    omega

/-- Claim C1, counterexample to the claim as stated: A multi-pass run whose
first tool call verifies: the extra final-answer round yields a second
`propose` transition, but the terminal metrics record `llm_calls = 1`, not
2 — the count does *not* include the final-answer round. -/
theorem multi_pass_final_round_not_counted_cex :
    (solve_multi_pass jsonLoadsFix toolSql demoPrompt
        [LLMReply.reply turnCall 10 5,
          LLMReply.reply "The answer is 12345." 7 3]).2 =
      Outcome.success "The answer is 12345." ⟨17, 8, 1⟩ ∧
    countPropose (solve_multi_pass jsonLoadsFix toolSql demoPrompt
        [LLMReply.reply turnCall 10 5,
          LLMReply.reply "The answer is 12345." 7 3]).1 = 2 ∧
    (1 : Nat) ≠ 2 :=
  ⟨rfl, rfl, by decide⟩

/-- C1 (amended), evaluated on the demo's two-attempt run: one verification
failure, then success; three `propose` transitions, terminal
`llm_calls = 2` (propose count minus one), strictly greater than 1. -/
theorem multi_pass_llm_calls_propose_relation_witness :
    (solve_multi_pass jsonLoadsFix toolSql demoPrompt
        [LLMReply.reply turnBad 10 5, LLMReply.reply turnCall 9 4,
          LLMReply.reply "The answer is 12345." 7 3]).2 =
      Outcome.success "The answer is 12345." ⟨26, 12, 2⟩ ∧
    countPropose (solve_multi_pass jsonLoadsFix toolSql demoPrompt
        [LLMReply.reply turnBad 10 5, LLMReply.reply turnCall 9 4,
          LLMReply.reply "The answer is 12345." 7 3]).1 = 3 ∧
    countVerifyFailures (solve_multi_pass jsonLoadsFix toolSql demoPrompt
        [LLMReply.reply turnBad 10 5, LLMReply.reply turnCall 9 4,
          LLMReply.reply "The answer is 12345." 7 3]).1 = 1 ∧
    (((⟨26, 12, 2⟩ : Metrics).llm_calls =
        countPropose (solve_multi_pass jsonLoadsFix toolSql demoPrompt
          [LLMReply.reply turnBad 10 5, LLMReply.reply turnCall 9 4,
            LLMReply.reply "The answer is 12345." 7 3]).1 ∨
      ((⟨26, 12, 2⟩ : Metrics).llm_calls + 1 =
          countPropose (solve_multi_pass jsonLoadsFix toolSql demoPrompt
            [LLMReply.reply turnBad 10 5, LLMReply.reply turnCall 9 4,
              LLMReply.reply "The answer is 12345." 7 3]).1 ∧
        2 ≤ countPropose (solve_multi_pass jsonLoadsFix toolSql demoPrompt
          [LLMReply.reply turnBad 10 5, LLMReply.reply turnCall 9 4,
            LLMReply.reply "The answer is 12345." 7 3]).1)) ∧
    (1 ≤ countVerifyFailures (solve_multi_pass jsonLoadsFix toolSql demoPrompt
        [LLMReply.reply turnBad 10 5, LLMReply.reply turnCall 9 4,
          LLMReply.reply "The answer is 12345." 7 3]).1 →
      2 ≤ (⟨26, 12, 2⟩ : Metrics).llm_calls)) :=
  ⟨rfl, rfl, rfl,
    multi_pass_llm_calls_propose_relation jsonLoadsFix toolSql demoPrompt
      [LLMReply.reply turnBad 10 5, LLMReply.reply turnCall 9 4,
        LLMReply.reply "The answer is 12345." 7 3]
      "The answer is 12345." ⟨26, 12, 2⟩ rfl⟩

/-! ## C2 — no max-attempts bound exists -/

/-- With every reply a call that fails verification, the loop never reaches
a terminal event: one `propose` and one verification failure per reply, no
`success`, no `error`, and the run ends only because the reply script runs
out (`starved`), not because of any attempt bound. -/
lemma loop_allfail (single : Bool) (jl : String → Option PyVal)
    (tool : PyDict → PyVal) :
    ∀ (script : List LLMReply) (st : AgentState),
      (∀ r ∈ script, ∃ s p c, r = LLMReply.reply s p c ∧
        ∃ d, extractToolCall jl s = ExtractResult.call d ∧
          verify (tool d) = false) →
      (solveLoop single jl tool script st).2 = Outcome.starved ∧
      countSuccess (solveLoop single jl tool script st).1 = 0 ∧
      countError (solveLoop single jl tool script st).1 = 0 ∧
      countVerifyFailures (solveLoop single jl tool script st).1 = script.length ∧
      countPropose (solveLoop single jl tool script st).1 = script.length + 1 := by
  intro script
  induction script with
  | nil =>
      intro st _
      rw [solveLoop_nil]
      refine ⟨rfl, ?_, ?_, ?_, ?_⟩ <;>
        simp [countSuccess, countError, countVerifyFailures, countPropose,
          List.countP_cons, Event.isSuccess, Event.isError,
          Event.isVerifyFailure, Event.isPropose]
  | cons r rest ih =>
      intro st hall
      obtain ⟨s, p, c, rfl, d, hex, hv⟩ := hall r (List.mem_cons_self r rest)
      have hall' : ∀ r ∈ rest, ∃ s p c, r = LLMReply.reply s p c ∧
          ∃ d, extractToolCall jl s = ExtractResult.call d ∧
            verify (tool d) = false :=
        fun r hr => hall r (List.mem_cons_of_mem _ hr)
      have hfst := congrArg Prod.fst
        (solveLoop_cons_call_fail single jl tool s p c rest st d hex hv)
      have hsnd := congrArg Prod.snd
        (solveLoop_cons_call_fail single jl tool s p c rest st d hex hv)
      obtain ⟨iho, ihs, ihe, ihv, ihp⟩ :=
        ih ⟨st.messages ++ [⟨"assistant", MsgContent.text s⟩,
          ⟨"tool", MsgContent.json (tool d)⟩],
          stepMetrics st.metrics p c, st.attempt + 1⟩ hall'
      obtain ⟨hce, hcs, hcp, hcv⟩ := counts_prefix_fail single st.metrics
        (stepMetrics st.metrics p c) s d (tool d)
        (solveLoop single jl tool rest
          ⟨st.messages ++ [⟨"assistant", MsgContent.text s⟩,
            ⟨"tool", MsgContent.json (tool d)⟩],
            stepMetrics st.metrics p c, st.attempt + 1⟩).1
      refine ⟨?_, ?_, ?_, ?_, ?_⟩
      · rw [hsnd]
        exact iho
      · rw [hfst, hcs, ihs]
      · rw [hfst, hce, ihe]
      · rw [hfst, hcv, ihv, hv]
        simp
        omega
      · rw [hfst, hcp, ihp]
        simp

/-- Claim C2, amended: The orchestration loop of src/app/agent.py has no
max-attempts bound at all: with a tool whose result fails verification on
every call (and a model that keeps issuing tool calls), the multi-pass
session emits one `propose` and one verification failure per provider
reply — for *any* number of replies — and never emits a terminal ERROR
(max-attempts or otherwise) nor a SUCCESS; the run only stops by exhausting
the provider script, still awaiting the next round.  (The claim's
"configured with max attempts = 3" has no counterpart in the code: the loop
is `while True`; the agent_v2 rewrite hard-codes `max_attempts = 10` around
a placeholder body that yields SUCCESS, never a max-attempts ERROR.) -/
theorem multi_pass_no_attempt_bound (jl : String → Option PyVal)
    (tool : PyDict → PyVal) (prompt : String) (script : List LLMReply)
    (hall : ∀ r ∈ script, ∃ s p c, r = LLMReply.reply s p c ∧
      ∃ d, extractToolCall jl s = ExtractResult.call d ∧
        verify (tool d) = false) :
    (solve_multi_pass jl tool prompt script).2 = Outcome.starved ∧
    countSuccess (solve_multi_pass jl tool prompt script).1 = 0 ∧
    countError (solve_multi_pass jl tool prompt script).1 = 0 ∧
    countVerifyFailures (solve_multi_pass jl tool prompt script).1 = script.length ∧
    countPropose (solve_multi_pass jl tool prompt script).1 = script.length + 1 := by
  simp only [solve_multi_pass]
  exact loop_allfail false jl tool script _ hall

/-- Claim C2, counterexample to the claim as stated: Four rounds of an
always-failing tool: after the third verification failure the session has
emitted no ERROR event (and no SUCCESS) and still issues a fourth and a
fifth `propose` — it does not terminate after exactly 3 failures. -/
theorem multi_pass_no_max_attempts_cex :
    countVerifyFailures (solve_multi_pass jsonLoadsFix toolFail demoPrompt
        [LLMReply.reply turnCall 10 5, LLMReply.reply turnCall 10 5,
          LLMReply.reply turnCall 10 5, LLMReply.reply turnCall 10 5]).1 = 4 ∧
    countError (solve_multi_pass jsonLoadsFix toolFail demoPrompt
        [LLMReply.reply turnCall 10 5, LLMReply.reply turnCall 10 5,
          LLMReply.reply turnCall 10 5, LLMReply.reply turnCall 10 5]).1 = 0 ∧
    countSuccess (solve_multi_pass jsonLoadsFix toolFail demoPrompt
        [LLMReply.reply turnCall 10 5, LLMReply.reply turnCall 10 5,
          LLMReply.reply turnCall 10 5, LLMReply.reply turnCall 10 5]).1 = 0 ∧
    countPropose (solve_multi_pass jsonLoadsFix toolFail demoPrompt
        [LLMReply.reply turnCall 10 5, LLMReply.reply turnCall 10 5,
          LLMReply.reply turnCall 10 5, LLMReply.reply turnCall 10 5]).1 = 5 :=
  ⟨rfl, rfl, rfl, rfl⟩

/-- C2 (amended), evaluated at the claim's boundary of three failures: the
loop has emitted exactly 3 verification failures, no ERROR and no SUCCESS,
and has already proposed a fourth round. -/
theorem multi_pass_no_attempt_bound_witness :
    (solve_multi_pass jsonLoadsFix toolFail demoPrompt
        [LLMReply.reply turnCall 10 5, LLMReply.reply turnCall 10 5,
          LLMReply.reply turnCall 10 5]).2 = Outcome.starved ∧
    countVerifyFailures (solve_multi_pass jsonLoadsFix toolFail demoPrompt
        [LLMReply.reply turnCall 10 5, LLMReply.reply turnCall 10 5,
          LLMReply.reply turnCall 10 5]).1 = 3 ∧
    countError (solve_multi_pass jsonLoadsFix toolFail demoPrompt
        [LLMReply.reply turnCall 10 5, LLMReply.reply turnCall 10 5,
          LLMReply.reply turnCall 10 5]).1 = 0 ∧
    countSuccess (solve_multi_pass jsonLoadsFix toolFail demoPrompt
        [LLMReply.reply turnCall 10 5, LLMReply.reply turnCall 10 5,
          LLMReply.reply turnCall 10 5]).1 = 0 ∧
    countPropose (solve_multi_pass jsonLoadsFix toolFail demoPrompt
        [LLMReply.reply turnCall 10 5, LLMReply.reply turnCall 10 5,
          LLMReply.reply turnCall 10 5]).1 = 4 := by
  have h := multi_pass_no_attempt_bound jsonLoadsFix toolFail demoPrompt
    [LLMReply.reply turnCall 10 5, LLMReply.reply turnCall 10 5,
      LLMReply.reply turnCall 10 5]
    (by
      intro r hr
      simp only [List.mem_cons, List.not_mem_nil, or_false] at hr
      rcases hr with rfl | rfl | rfl <;>
        exact ⟨turnCall, 10, 5, rfl, stdCall, by rfl, by rfl⟩)
  exact ⟨h.1, h.2.2.2.1, h.2.2.1, h.2.1, h.2.2.2.2⟩

end SpocShot
